import Mathlib

/-!
# Verification development for `contrib/babelfishpg_tsql/src/pltsql_utils.c`

Shallow embedding of the nested transaction controller
(`PLTsqlStartTransaction`, `PLTsqlCommitTransaction`, `PLTsqlRollbackTransaction`
and their wrappers) and of the statement template rewriters (`update_*Stmt`).

Conventions of the embedding:
* a C global becomes a field of an explicit state record;
* a nullable pointer argument becomes an `Option`;
* a routine that can leave through `ereport(ERROR, ...)` returns the state at the
  moment of the report together with an `Outcome`;
* `elog(DEBUG2, ...)` lines only log and are dropped.
-/

namespace PltsqlUtils

/-! ## Outcomes -/

/-- How a call leaves: a normal return, an `ereport(ERROR, ...)` with its error code and
message, or a memory fault (a dereference of a null or freed pointer). -/
inductive Outcome where
  | ok
  | error (errcode : String) (msg : String)
  | fault (what : String)
  deriving DecidableEq, Repr

/-- True when the call left through `ereport(ERROR, ...)`. -/
def Outcome.isError : Outcome → Bool
  | .error _ _ => true
  | _ => false

/-! ## Nested transaction controller -/

/-- The command tags of the engine that the controller reads or writes. -/
inductive CommandTag where
  | CMDTAG_UNKNOWN
  | CMDTAG_BEGIN
  | CMDTAG_COMMIT
  | CMDTAG_ROLLBACK
  | CMDTAG_SAVEPOINT
  deriving DecidableEq, Repr

/-- The completion record `QueryCompletion` handed in by the caller (may be `NULL`). -/
structure QueryCompletion where
  commandTag : CommandTag
  nprocessed : Nat
  deriving DecidableEq, Repr

/-- The transaction-manager primitives the controller calls. They are engine routines that
live outside these sources, so the controller is embedded over an arbitrary implementation of
them; `σ` is the engine's own transaction state. `EndTransactionBlock` returns the engine's
verdict (`false`: the commit failed) with the new state. -/
structure Engine (σ : Type) where
  IsTransactionBlockActive : σ → Bool
  BeginTransactionBlock : σ → σ
  SetTopTransactionName : String → σ → σ
  IsTopTransactionName : Option String → σ → Bool
  EndTransactionBlock : Bool → σ → Bool × σ
  UserAbortTransactionBlock : Bool → σ → σ
  RollbackToSavepoint : Option String → σ → σ
  RollbackAndReleaseSavepoint : Option String → σ → σ
  CommitTransactionCommand : σ → σ
  StartTransactionCommand : σ → σ

/-- One recorded call `set_at_at_stat_var(key, value, flag)` on the protocol plugin. -/
structure StatVarCall where
  key : String
  value : Int
  flag : Int
  deriving DecidableEq, Repr

/-- The session state the controller works on.
* `NestedTranCount`: the global counter. Its declaration is not part of these sources; the
  specification's data model calls it an integer counter, and it is embedded as an integer.
* `xact`: the engine's transaction state.
* `plugin_ptr`: `*pltsql_protocol_plugin_ptr` is not `NULL`.
* `set_at_at_stat_var`: the plugin's `set_at_at_stat_var` hook is not `NULL`.
* `stat_calls`: the calls the hook has received, newest first. -/
structure Session (σ : Type) where
  NestedTranCount : Int
  xact : σ
  plugin_ptr : Bool
  set_at_at_stat_var : Bool
  stat_calls : List StatVarCall

/-- The lines
`if (*pltsql_protocol_plugin_ptr && (*pltsql_protocol_plugin_ptr)->set_at_at_stat_var)`
`    (*pltsql_protocol_plugin_ptr)->set_at_at_stat_var("trancount", NestedTranCount, 0);` -/
def publishTrancount {σ : Type} (s : Session σ) : Session σ :=
  if s.plugin_ptr && s.set_at_at_stat_var then
    { s with stat_calls := ⟨"trancount", s.NestedTranCount, 0⟩ :: s.stat_calls }
  else s

/-- The value most recently published under a key, if any. -/
def lastPublished {σ : Type} (s : Session σ) (key : String) : Option Int :=
  (s.stat_calls.find? (fun c => c.key == key)).map (fun c => c.value)

/-- Modelled from the spec: `RequireTransactionBlock(true, stmtType)` is an engine routine that
is not part of these sources. Section 4.1: the operation "requires an active transaction block
(error otherwise)". Returns the error it reports, or `none` when the block is active. -/
def RequireTransactionBlock {σ : Type} (E : Engine σ) (x : σ) (stmtType : String) :
    Option Outcome :=
  if E.IsTransactionBlockActive x then none
  else some (.error "ERRCODE_NO_ACTIVE_SQL_TRANSACTION"
    (stmtType ++ " can only be used in transaction blocks"))

/-- `PLTsqlStartTransaction(char *txnName)`. The `Assert(NestedTranCount == 0)` is compiled out
of production builds and is not executed here. -/
def PLTsqlStartTransaction {σ : Type} (E : Engine σ) (txnName : Option String)
    (s : Session σ) : Session σ :=
  let s1 : Session σ :=
    if !E.IsTransactionBlockActive s.xact then
      let x1 := E.BeginTransactionBlock s.xact
      let x2 := match txnName with
        | some n => E.SetTopTransactionName n x1
        | none => x1
      { s with xact := x2 }
    else s
  publishTrancount { s1 with NestedTranCount := s1.NestedTranCount + 1 }

/-- What a commit or rollback call leaves behind: the session, the caller's completion record
and the way the call left. -/
structure TxnResult (σ : Type) where
  st : Session σ
  qc : Option QueryCompletion
  out : Outcome

/-- `PLTsqlCommitTransaction(QueryCompletion *qc, bool chain)`. -/
def PLTsqlCommitTransaction {σ : Type} (E : Engine σ) (qc : Option QueryCompletion)
    (chain : Bool) (s : Session σ) : TxnResult σ :=
  if s.NestedTranCount ≤ 1 then
    match RequireTransactionBlock E s.xact "COMMIT" with
    | some e => ⟨s, qc, e⟩
    | none =>
      let r := E.EndTransactionBlock chain s.xact
      let qc1 := if !r.1 then qc.map (fun q => { q with commandTag := .CMDTAG_ROLLBACK }) else qc
      ⟨publishTrancount { s with xact := r.2, NestedTranCount := 0 }, qc1, .ok⟩
  else
    ⟨publishTrancount { s with NestedTranCount := s.NestedTranCount - 1 }, qc, .ok⟩

/-- `PLTsqlRollbackTransaction(char *txnName, QueryCompletion *qc, bool chain)`. -/
def PLTsqlRollbackTransaction {σ : Type} (E : Engine σ) (txnName : Option String)
    (qc : Option QueryCompletion) (chain : Bool) (s : Session σ) : TxnResult σ :=
  if E.IsTopTransactionName txnName s.xact then
    match RequireTransactionBlock E s.xact "ROLLBACK" with
    | some e => ⟨s, qc, e⟩
    | none =>
      let x1 := E.UserAbortTransactionBlock chain s.xact
      ⟨publishTrancount { s with xact := x1, NestedTranCount := 0 }, qc, .ok⟩
  else
    match RequireTransactionBlock E s.xact "ROLLBACK TO SAVEPOINT" with
    | some e => ⟨s, qc, e⟩
    | none =>
      let x1 := E.RollbackToSavepoint txnName s.xact
      let x2 := E.RollbackAndReleaseSavepoint txnName x1
      ⟨{ s with xact := x2 }, qc.map (fun q => { q with commandTag := .CMDTAG_SAVEPOINT }), .ok⟩

/-- `pltsql_start_txn(void)`. -/
def pltsql_start_txn {σ : Type} (E : Engine σ) (s : Session σ) : Session σ :=
  let s1 := PLTsqlStartTransaction E none s
  { s1 with xact := E.CommitTransactionCommand s1.xact }

/-- `pltsql_commit_txn(void)`: the commit is called with `qc = NULL`; the wrapper returns
nothing, so its result is the session and the way it left. -/
def pltsql_commit_txn {σ : Type} (E : Engine σ) (s : Session σ) : Session σ × Outcome :=
  let r := PLTsqlCommitTransaction E none false s
  match r.out with
  | .ok => ({ r.st with xact := E.StartTransactionCommand (E.CommitTransactionCommand r.st.xact) }, .ok)
  | e => (r.st, e)

/-- `pltsql_rollback_txn(void)`. -/
def pltsql_rollback_txn {σ : Type} (E : Engine σ) (s : Session σ) : Session σ × Outcome :=
  let r := PLTsqlRollbackTransaction E none none false s
  match r.out with
  | .ok => ({ r.st with xact := E.StartTransactionCommand (E.CommitTransactionCommand r.st.xact) }, .ok)
  | e => (r.st, e)

/-- One transaction-control call with its arguments. -/
inductive TxnCall where
  | start (txnName : Option String)
  | commit (qc : Option QueryCompletion) (chain : Bool)
  | rollback (txnName : Option String) (qc : Option QueryCompletion) (chain : Bool)
  deriving DecidableEq, Repr

/-- Performs one call; a start call always returns normally. -/
def stepCall {σ : Type} (E : Engine σ) (s : Session σ) : TxnCall → TxnResult σ
  | .start n => ⟨PLTsqlStartTransaction E n s, none, .ok⟩
  | .commit qc c => PLTsqlCommitTransaction E qc c s
  | .rollback n qc c => PLTsqlRollbackTransaction E n qc c s

/-- The session after a sequence of calls, each starting where the previous one left. -/
def runCalls {σ : Type} (E : Engine σ) (s : Session σ) : List TxnCall → Session σ
  | [] => s
  | c :: cs => runCalls E (stepCall E s c).st cs

/-- True when every call of the sequence returned normally. -/
def allOk {σ : Type} (E : Engine σ) (s : Session σ) : List TxnCall → Bool
  | [] => true
  | c :: cs => decide ((stepCall E s c).out = .ok) && allOk E (stepCall E s c).st cs

/-- The contract of the engine's block primitives as section 4.1 describes them: beginning
opens the block, naming it does not close it, ending or aborting an open block closes it, and
rolling back to a savepoint and releasing it keeps an open block open. -/
structure BlockContract {σ : Type} (E : Engine σ) : Prop where
  begin_opens : ∀ x, E.IsTransactionBlockActive (E.BeginTransactionBlock x) = true
  name_keeps : ∀ n x, E.IsTransactionBlockActive (E.SetTopTransactionName n x)
    = E.IsTransactionBlockActive x
  end_closes : ∀ c x, E.IsTransactionBlockActive x = true →
    E.IsTransactionBlockActive (E.EndTransactionBlock c x).2 = false
  abort_closes : ∀ c x, E.IsTransactionBlockActive x = true →
    E.IsTransactionBlockActive (E.UserAbortTransactionBlock c x) = false
  savepoint_keeps : ∀ n x, E.IsTransactionBlockActive x = true →
    E.IsTransactionBlockActive (E.RollbackAndReleaseSavepoint n (E.RollbackToSavepoint n x))
      = true

/-- The state of the sample engine: whether a block is open, whether the open transaction has
failed (so that ending it rolls back), the recorded top-level name and the savepoints. -/
structure SampleXact where
  blockActive : Bool
  failed : Bool
  topName : Option String
  savepoints : List String
  deriving DecidableEq, Repr

/-- Modelled from the spec: a small transaction manager following sections 4.1 and 6 (begin,
end and abort of a block, savepoint rollback and release, the "is a block active" query and
the "is this the block's name" query). It is used to run the controller on concrete inputs. -/
def sampleEngine : Engine SampleXact where
  IsTransactionBlockActive x := x.blockActive
  BeginTransactionBlock x := { x with blockActive := true, failed := false }
  SetTopTransactionName n x := { x with topName := some n }
  IsTopTransactionName n x := decide (n = x.topName)
  EndTransactionBlock _ x := (!x.failed, ⟨false, false, none, []⟩)
  UserAbortTransactionBlock _ _ := ⟨false, false, none, []⟩
  RollbackToSavepoint n x := { x with savepoints := x.savepoints.dropWhile (fun p => some p != n) }
  RollbackAndReleaseSavepoint n x := { x with savepoints := x.savepoints.filter (fun p => some p != n) }
  CommitTransactionCommand x := x
  StartTransactionCommand x := x

/-- The idle session on the sample engine, with a status-variable sink installed. -/
def sampleIdle : Session SampleXact :=
  ⟨0, ⟨false, false, none, []⟩, true, true, []⟩

/-- A session on the sample engine with one open transaction named "t" that has failed, so
that the engine's attempt to end the block reports a failed commit. -/
def sampleFailedOpen : Session SampleXact :=
  ⟨1, ⟨true, true, some "t", []⟩, true, true, []⟩

/-- A session on the sample engine two levels deep in an open transaction named "t" with a
savepoint "sp", with a status-variable sink installed that has received nothing yet. -/
def sampleNested : Session SampleXact :=
  ⟨2, ⟨true, false, some "t", ["sp"]⟩, true, true, []⟩

/-! ## Statement template rewriter: parse-tree nodes

The node structures are declared in the engine's headers; each is embedded with the fields
the rewriters touch and some of their neighbours. A `char *` or a pointer to a structure
that may be `NULL` is an `Option`; a `List *` is a list, `NIL` being the empty list. -/

/-- The enumeration `RoleSpecType`. -/
inductive RoleSpecType where
  | ROLESPEC_CSTRING
  | ROLESPEC_CURRENT_USER
  | ROLESPEC_SESSION_USER
  | ROLESPEC_PUBLIC
  deriving DecidableEq, Repr

/-- The node `RoleSpec`. -/
structure RoleSpec where
  roletype : RoleSpecType
  rolename : Option String
  location : Int
  deriving DecidableEq, Repr

/-- The node `RangeVar`. -/
structure RangeVar where
  catalogname : Option String
  schemaname : Option String
  relname : Option String
  location : Int
  deriving DecidableEq, Repr

/-- The node `AccessPriv`. -/
structure AccessPriv where
  priv_name : Option String
  cols : List String
  deriving DecidableEq, Repr

/-- The sub-command kinds of `AlterTableCmd` that matter here. -/
inductive AlterTableType where
  | AT_AddColumn
  | AT_ChangeOwner
  | AT_Other (code : Nat)
  deriving DecidableEq, Repr

/-- The node `AlterTableCmd`. -/
structure AlterTableCmd where
  subtype : AlterTableType
  name : Option String
  newowner : Option RoleSpec
  missing_ok : Bool
  deriving DecidableEq, Repr

/-- The node `AlterTableStmt`. -/
structure AlterTableStmt where
  relation : Option RangeVar
  cmds : List AlterTableCmd
  missing_ok : Bool
  deriving DecidableEq, Repr

/-- What `DefElem.arg` points to: nothing, a non-empty list of role specifications (an empty
list is `NIL`, that is `NULL`), or some other node. -/
inductive DefArg where
  | null
  | roleList (first : RoleSpec) (rest : List RoleSpec)
  | otherNode (tag : Nat)
  deriving DecidableEq, Repr

/-- The node `DefElem`. -/
structure DefElem where
  defname : String
  arg : DefArg
  location : Int
  deriving DecidableEq, Repr

/-- The node `CreateRoleStmt`. -/
structure CreateRoleStmt where
  stmt_type : Nat
  role : Option String
  options : List DefElem
  deriving DecidableEq, Repr

/-- The node `AlterRoleStmt`. -/
structure AlterRoleStmt where
  role : Option RoleSpec
  options : List DefElem
  action : Int
  deriving DecidableEq, Repr

/-- The node `CreateSchemaStmt`. -/
structure CreateSchemaStmt where
  schemaname : Option String
  authrole : Option RoleSpec
  if_not_exists : Bool
  deriving DecidableEq, Repr

/-- The node `DropOwnedStmt`. -/
structure DropOwnedStmt where
  roles : List RoleSpec
  behavior : Nat
  deriving DecidableEq, Repr

/-- A pointer to a `RoleSpec` held in a list cell: the structure it points to is either
live or has been released with `pfree`. -/
inductive RolePtr where
  | live (r : RoleSpec)
  | freed
  deriving DecidableEq, Repr

/-- The node `DropRoleStmt`. -/
structure DropRoleStmt where
  roles : List RolePtr
  missing_ok : Bool
  deriving DecidableEq, Repr

/-- An element of an object list: a string node, a `RangeVar`, or some other node. -/
inductive ObjNode where
  | T_String (str : String)
  | T_RangeVar (rv : RangeVar)
  | T_Other (tag : Nat)
  deriving DecidableEq, Repr

/-- The node `DropStmt`. -/
structure DropStmt where
  objects : List ObjNode
  removeType : Nat
  behavior : Nat
  missing_ok : Bool
  deriving DecidableEq, Repr

/-- The node `GrantRoleStmt`. -/
structure GrantRoleStmt where
  granted_roles : List AccessPriv
  grantee_roles : List RoleSpec
  is_grant : Bool
  admin_opt : Bool
  deriving DecidableEq, Repr

/-- The node `GrantStmt`. -/
structure GrantStmt where
  is_grant : Bool
  objtype : Nat
  objects : List ObjNode
  privileges : List AccessPriv
  grantees : List RoleSpec
  grant_option : Bool
  deriving DecidableEq, Repr

/-- The node `RenameStmt`. -/
structure RenameStmt where
  renameType : Nat
  relation : Option RangeVar
  subname : Option String
  newname : Option String
  missing_ok : Bool
  deriving DecidableEq, Repr

/-- The node `ViewStmt`. -/
structure ViewStmt where
  view : Option RangeVar
  aliases : List String
  replace : Bool
  deriving DecidableEq, Repr

/-- The discriminant `NodeTag` of a parse-tree node. -/
inductive NodeTag where
  | T_AlterTableStmt
  | T_CreateRoleStmt
  | T_AlterRoleStmt
  | T_CreateSchemaStmt
  | T_DropOwnedStmt
  | T_DropRoleStmt
  | T_DropStmt
  | T_GrantRoleStmt
  | T_GrantStmt
  | T_RenameStmt
  | T_ViewStmt
  | T_Other (code : Nat)
  deriving DecidableEq, Repr

/-- A parse-tree node `Node *`: one of the eleven statement kinds the rewriters know, or a
node of any other kind. -/
inductive Node where
  | T_AlterTableStmt (stmt : AlterTableStmt)
  | T_CreateRoleStmt (stmt : CreateRoleStmt)
  | T_AlterRoleStmt (stmt : AlterRoleStmt)
  | T_CreateSchemaStmt (stmt : CreateSchemaStmt)
  | T_DropOwnedStmt (stmt : DropOwnedStmt)
  | T_DropRoleStmt (stmt : DropRoleStmt)
  | T_DropStmt (stmt : DropStmt)
  | T_GrantRoleStmt (stmt : GrantRoleStmt)
  | T_GrantStmt (stmt : GrantStmt)
  | T_RenameStmt (stmt : RenameStmt)
  | T_ViewStmt (stmt : ViewStmt)
  | T_Other (code : Nat)
  deriving DecidableEq, Repr

/-- The macro `nodeTag(n)`. -/
def nodeTag : Node → NodeTag
  | .T_AlterTableStmt _ => .T_AlterTableStmt
  | .T_CreateRoleStmt _ => .T_CreateRoleStmt
  | .T_AlterRoleStmt _ => .T_AlterRoleStmt
  | .T_CreateSchemaStmt _ => .T_CreateSchemaStmt
  | .T_DropOwnedStmt _ => .T_DropOwnedStmt
  | .T_DropRoleStmt _ => .T_DropRoleStmt
  | .T_DropStmt _ => .T_DropStmt
  | .T_GrantRoleStmt _ => .T_GrantRoleStmt
  | .T_GrantStmt _ => .T_GrantStmt
  | .T_RenameStmt _ => .T_RenameStmt
  | .T_ViewStmt _ => .T_ViewStmt
  | .T_Other c => .T_Other c

/-! ## Statement template rewriter: the `update_*Stmt` routines

Each routine returns the node as the call leaves it, with the way the call left. `pstrdup`
copies a string and is the identity on values; handed `NULL` it dereferences a null pointer. -/

/-- Applies a change to the element `llast(list)` points to; an empty list is left alone. -/
def mapLast {α : Type} (f : α → α) : List α → List α
  | [] => []
  | [a] => [f a]
  | a :: b :: l => a :: mapLast f (b :: l)

/-- The assignment `tmp->rolename = pstrdup(name)` on a `RoleSpec`. -/
def RoleSpec.setRolename (r : RoleSpec) (name : String) : RoleSpec :=
  { r with rolename := some name }

/-- The assignment `rv->schemaname = pstrdup(schema)` on a `RangeVar`. -/
def RangeVar.setSchemaname (rv : RangeVar) (schema : String) : RangeVar :=
  { rv with schemaname := some schema }

/-- The loop `foreach(lc, stmt->cmds)` of `update_AlterTableStmt`: every `AT_ChangeOwner`
command gets the new owner's name; a command of that kind without a `newowner` node stops the
loop with a null dereference. -/
def changeOwnerCmds (newowner : String) : List AlterTableCmd → List AlterTableCmd × Outcome
  | [] => ([], .ok)
  | cmd :: rest =>
    match cmd.subtype with
    | .AT_ChangeOwner =>
      match cmd.newowner with
      | none => (cmd :: rest, .fault "cmd->newowner is NULL")
      | some r =>
        let done := changeOwnerCmds newowner rest
        ({ cmd with newowner := some (r.setRolename newowner) } :: done.1, done.2)
    | _ =>
      let done := changeOwnerCmds newowner rest
      (cmd :: done.1, done.2)

/-- `update_AlterTableStmt(Node *n, const char *tbl_schema, const char *newowner)`. -/
def update_AlterTableStmt (n : Node) (tbl_schema newowner : Option String) : Node × Outcome :=
  match n with
  | .T_AlterTableStmt stmt =>
    let patched : AlterTableStmt × Outcome :=
      match tbl_schema with
      | none => (stmt, .ok)
      | some schema =>
        match stmt.relation with
        | none => (stmt, .fault "stmt->relation is NULL")
        | some rv => ({ stmt with relation := some (rv.setSchemaname schema) }, .ok)
    match patched.2 with
    | .ok =>
      match newowner with
      | none => (.T_AlterTableStmt patched.1, .ok)
      | some owner =>
        let done := changeOwnerCmds owner patched.1.cmds
        (.T_AlterTableStmt { patched.1 with cmds := done.1 }, done.2)
    | e => (.T_AlterTableStmt patched.1, e)
  | _ => (n, .error "ERRCODE_SYNTAX_ERROR" "query is not a AlterTableStmt")

/-- The two lines `RoleSpec *tmp = (RoleSpec *) llast((List *) defel->arg);`
`tmp->rolename = pstrdup(name);` on a non-null `defel->arg`. -/
def DefArg.setLastRolename (name : String) : DefArg → DefArg × Outcome
  | .null => (.null, .ok)
  | .roleList first [] => (.roleList (first.setRolename name) [], .ok)
  | .roleList first (b :: l) =>
    (.roleList first (mapLast (fun r => r.setRolename name) (b :: l)), .ok)
  | .otherNode tag => (.otherNode tag, .fault "defel->arg is not a list of RoleSpec")

/-- The loop `foreach(option, stmt->options)` of `update_CreateRoleStmt`. -/
def patchRoleOptions (member addto : Option String) : List DefElem → List DefElem × Outcome
  | [] => ([], .ok)
  | defel :: rest =>
    let hitMember := member.isSome && defel.arg != DefArg.null && defel.defname == "rolemembers"
    let hitAddto := addto.isSome && defel.arg != DefArg.null && defel.defname == "addroleto"
    let chosen : Option String :=
      if hitMember then member else if hitAddto then addto else none
    match chosen with
    | none =>
      let done := patchRoleOptions member addto rest
      (defel :: done.1, done.2)
    | some name =>
      let arg1 := defel.arg.setLastRolename name
      match arg1.2 with
      | .ok =>
        let done := patchRoleOptions member addto rest
        ({ defel with arg := arg1.1 } :: done.1, done.2)
      | e => (defel :: rest, e)

/-- `update_CreateRoleStmt(Node *n, const char *role, const char *member, const char *addto)`. -/
def update_CreateRoleStmt (n : Node) (role member addto : Option String) : Node × Outcome :=
  match n with
  | .T_CreateRoleStmt stmt =>
    let stmt1 : CreateRoleStmt :=
      match role with
      | some r => { stmt with role := some r }
      | none => stmt
    if member.isNone && addto.isNone then (.T_CreateRoleStmt stmt1, .ok)
    else
      let done := patchRoleOptions member addto stmt1.options
      (.T_CreateRoleStmt { stmt1 with options := done.1 }, done.2)
  | _ => (n, .error "ERRCODE_SYNTAX_ERROR" "query is not a CreateRoleStmt")

/-- `update_AlterRoleStmt(Node *n, RoleSpec *role)`. -/
def update_AlterRoleStmt (n : Node) (role : Option RoleSpec) : Node × Outcome :=
  match n with
  | .T_AlterRoleStmt stmt => (.T_AlterRoleStmt { stmt with role := role }, .ok)
  | _ => (n, .error "ERRCODE_SYNTAX_ERROR" "query is not an AlterRoleStmt")

/-- `update_CreateSchemaStmt(Node *n, const char *schemaname, const char *authrole)`. -/
def update_CreateSchemaStmt (n : Node) (schemaname authrole : Option String) :
    Node × Outcome :=
  match n with
  | .T_CreateSchemaStmt stmt =>
    let stmt1 : CreateSchemaStmt :=
      match schemaname with
      | some name => { stmt with schemaname := some name }
      | none => stmt
    match authrole with
    | none => (.T_CreateSchemaStmt stmt1, .ok)
    | some auth =>
      match stmt1.authrole with
      | none => (.T_CreateSchemaStmt stmt1, .fault "stmt->authrole is NULL")
      | some r => (.T_CreateSchemaStmt { stmt1 with authrole := some (r.setRolename auth) }, .ok)
  | _ => (n, .error "ERRCODE_SYNTAX_ERROR" "query is not a CreateSchemaStmt")

/-- `update_DropOwnedStmt(Node *n, List *role_list)`: the loop builds one fresh `RoleSpec` per
name of `role_list`, in order, and the result replaces `stmt->roles`. -/
def update_DropOwnedStmt (n : Node) (role_list : List String) : Node × Outcome :=
  match n with
  | .T_DropOwnedStmt stmt =>
    let rolespec_list : List RoleSpec :=
      role_list.map (fun name => ⟨.ROLESPEC_CSTRING, some name, -1⟩)
    (.T_DropOwnedStmt { stmt with roles := rolespec_list }, .ok)
  | _ => (n, .error "ERRCODE_SYNTAX_ERROR" "query is not a DropOwnedStmt")

/-- The two lines `tmp = (RoleSpec *) llast(stmt->roles); tmp->rolename = pstrdup(role);`
of `update_DropRoleStmt`; writing through a pointer whose target was released is a fault. -/
def renameLastRolePtr (role : String) : List RolePtr → List RolePtr × Outcome
  | [] => ([], .ok)
  | [.live r] => ([.live (r.setRolename role)], .ok)
  | [.freed] => ([.freed], .fault "write through a freed RoleSpec")
  | p :: q :: l =>
    let done := renameLastRolePtr role (q :: l)
    (p :: done.1, done.2)

/-- `update_DropRoleStmt(Node *n, const char *role)`. The first element is released with
`pfree` whether or not its cell was deleted from the list. -/
def update_DropRoleStmt (n : Node) (role : Option String) : Node × Outcome :=
  match n with
  | .T_DropRoleStmt stmt =>
    match role, stmt.roles with
    | some r, first :: rest =>
      match first with
      | .freed => (n, .fault "read through a freed RoleSpec")
      | .live tmp =>
        match tmp.rolename with
        | none => (n, .fault "tmp->rolename is NULL")
        | some name =>
          let roles1 : List RolePtr := if name == "is_role" then rest else .freed :: rest
          match roles1 with
          | [] => (.T_DropRoleStmt { stmt with roles := [] }, .ok)
          | p :: l =>
            let done := renameLastRolePtr r (p :: l)
            (.T_DropRoleStmt { stmt with roles := done.1 }, done.2)
    | _, _ => (n, .ok)
  | _ => (n, .error "ERRCODE_SYNTAX_ERROR" "query is not a DropRoleStmt")

/-- `update_DropStmt(Node *n, const char *object)`. -/
def update_DropStmt (n : Node) (object : Option String) : Node × Outcome :=
  match n with
  | .T_DropStmt stmt =>
    match object, stmt.objects with
    | some obj, _ :: _ =>
      (.T_DropStmt { stmt with objects := mapLast (fun _ => ObjNode.T_String obj) stmt.objects },
        .ok)
    | _, _ => (n, .ok)
  | _ => (n, .error "ERRCODE_SYNTAX_ERROR" "query is not a DropStmt")

/-- `update_GrantRoleStmt(Node *n, List *privs, List *roles)`. -/
def update_GrantRoleStmt (n : Node) (privs : List AccessPriv) (roles : List RoleSpec) :
    Node × Outcome :=
  match n with
  | .T_GrantRoleStmt stmt =>
    (.T_GrantRoleStmt { stmt with granted_roles := privs, grantee_roles := roles }, .ok)
  | _ => (n, .error "ERRCODE_SYNTAX_ERROR" "query is not a GrantRoleStmt")

/-- The two lines `RangeVar *tmp = (RangeVar *) llast(stmt->objects);`
`tmp->schemaname = pstrdup(obj_schema);` of `update_GrantStmt`; when the last object is not
a `RangeVar` the write lands outside the node and is a fault. -/
def setLastSchemaname (obj_schema : String) : List ObjNode → List ObjNode × Outcome
  | [] => ([], .ok)
  | [.T_RangeVar rv] => ([.T_RangeVar (rv.setSchemaname obj_schema)], .ok)
  | [o] => ([o], .fault "llast(stmt->objects) is not a RangeVar")
  | a :: b :: l =>
    let done := setLastSchemaname obj_schema (b :: l)
    (a :: done.1, done.2)

/-- The statement `if (object && stmt->objects) ... else if (obj_schema && stmt->objects) ...`
of `update_GrantStmt`. -/
def patchGrantObjects (stmt : GrantStmt) (object obj_schema : Option String) :
    GrantStmt × Outcome :=
  match object, stmt.objects with
  | some obj, _ :: _ =>
    ({ stmt with objects := mapLast (fun _ => ObjNode.T_String obj) stmt.objects }, .ok)
  | _, _ =>
    match obj_schema, stmt.objects with
    | some schema, _ :: _ =>
      let done := setLastSchemaname schema stmt.objects
      ({ stmt with objects := done.1 }, done.2)
    | _, _ => (stmt, .ok)

/-- The statement `if (grantee && stmt->grantees) ...` of `update_GrantStmt`. -/
def patchGrantee (stmt : GrantStmt) (grantee : Option String) : GrantStmt :=
  match grantee, stmt.grantees with
  | some g, _ :: _ => { stmt with grantees := mapLast (fun r => r.setRolename g) stmt.grantees }
  | _, _ => stmt

/-- `update_GrantStmt(Node *n, const char *object, const char *obj_schema,`
`const char *grantee)`. -/
def update_GrantStmt (n : Node) (object obj_schema grantee : Option String) : Node × Outcome :=
  match n with
  | .T_GrantStmt stmt =>
    let patched := patchGrantObjects stmt object obj_schema
    match patched.2 with
    | .ok => (.T_GrantStmt (patchGrantee patched.1 grantee), .ok)
    | e => (.T_GrantStmt patched.1, e)
  | _ => (n, .error "ERRCODE_SYNTAX_ERROR" "query is not a GrantStmt")

/-- `update_RenameStmt(Node *n, const char *old_name, const char *new_name)`: both names go
through `pstrdup` unguarded, `stmt->subname` first. -/
def update_RenameStmt (n : Node) (old_name new_name : Option String) : Node × Outcome :=
  match n with
  | .T_RenameStmt stmt =>
    match old_name with
    | none => (n, .fault "pstrdup(old_name) with old_name NULL")
    | some o =>
      let stmt1 : RenameStmt := { stmt with subname := some o }
      match new_name with
      | none => (.T_RenameStmt stmt1, .fault "pstrdup(new_name) with new_name NULL")
      | some w => (.T_RenameStmt { stmt1 with newname := some w }, .ok)
  | _ => (n, .error "ERRCODE_SYNTAX_ERROR" "query is not a RenameStmt")

/-- `update_ViewStmt(Node *n, const char *view_schema)`. -/
def update_ViewStmt (n : Node) (view_schema : Option String) : Node × Outcome :=
  match n with
  | .T_ViewStmt stmt =>
    match view_schema with
    | none => (n, .ok)
    | some schema =>
      match stmt.view with
      | none => (n, .fault "stmt->view is NULL")
      | some rv => (.T_ViewStmt { stmt with view := some (rv.setSchemaname schema) }, .ok)
  | _ => (n, .error "ERRCODE_SYNTAX_ERROR" "query is not a ViewStmt")

/-- A drop-role template as the parser leaves it for `DROP ROLE is_role, alice`. -/
def sampleDropRole : Node :=
  .T_DropRoleStmt ⟨[.live ⟨.ROLESPEC_CSTRING, some "is_role", 10⟩,
    .live ⟨.ROLESPEC_CSTRING, some "alice", 19⟩], false⟩

/-- A rename template `ALTER ROLE old RENAME TO new`. -/
def sampleRename : Node :=
  .T_RenameStmt ⟨0, none, some "old", some "new", false⟩

/-- An alter-role template on the role "alice". -/
def sampleAlterRole : Node :=
  .T_AlterRoleStmt ⟨some ⟨.ROLESPEC_CSTRING, some "alice", 11⟩, [], 1⟩

/-- A grant-role template `GRANT r TO alice`. -/
def sampleGrantRole : Node :=
  .T_GrantRoleStmt ⟨[⟨some "r", []⟩], [⟨.ROLESPEC_CSTRING, some "alice", 11⟩], true, false⟩

/-- A drop-owned template `DROP OWNED BY alice`. -/
def sampleDropOwned : Node :=
  .T_DropOwnedStmt ⟨[⟨.ROLESPEC_CSTRING, some "alice", 14⟩], 0⟩


/-- A drop-role template whose role list is the sentinel alone, `DROP ROLE is_role`. -/
def sampleDropRoleSentinelOnly : Node :=
  .T_DropRoleStmt ⟨[.live ⟨.ROLESPEC_CSTRING, some "is_role", 10⟩], false⟩

/-- A drop-object template `DROP TABLE a, b` with string nodes for the objects. -/
def sampleDrop : DropStmt :=
  ⟨[.T_String "a", .T_String "b"], 0, 0, false⟩

/-- A grant template `GRANT ... ON s.t TO alice, carol`. -/
def sampleGrant : GrantStmt :=
  ⟨true, 1, [.T_RangeVar ⟨none, some "s", some "t", 20⟩], [⟨some "select", []⟩],
    [⟨.ROLESPEC_CSTRING, some "alice", 30⟩, ⟨.ROLESPEC_CSTRING, some "carol", 37⟩], false⟩

/-! ## Argument marshaling helper: `pltsql_declare_variable`

The arrays of the call frame and of the template-argument record are embedded as maps from
index to entry, so that a write at an index changes that entry and no other. The call frame
carries the number of slots its caller allocated: the routine does not look at it, and a
write at a slot index at or past that number lands in the memory that follows the frame. -/

/-- An object identifier `Oid`. -/
abbrev Oid := Nat

/-- A `Datum`. -/
abbrev Datum := Nat

/-- One slot `NullableDatum` of the call frame. -/
structure NullableDatum where
  value : Datum
  isnull : Bool
  deriving DecidableEq, Repr

/-- The conversion of a C `int` to `short`: the two's complement reading of its low 16 bits. -/
def toInt16 (x : Int) : Int :=
  (x + 32768) % 65536 - 32768

/-- The call frame `FunctionCallInfoBaseData`.
* `nargs`: the field `short nargs`; every store goes through `toInt16`.
* `nslots`: the number of slots the caller allocated, `n` in `LOCAL_FCINFO(fcinfo, n)`.
* `args`: the memory at `args[j]`. For `j < nslots` it is slot `j` of the frame; for
  `j ≥ nslots` it is the memory that follows the frame, which a write at such an index
  overwrites. -/
structure FunctionCallInfoBaseData where
  nargs : Int
  nslots : Nat
  args : Nat → NullableDatum

/-- The template-argument record `InlineCodeBlockArgs`. -/
structure InlineCodeBlockArgs where
  numargs : Int
  argtypes : Nat → Oid
  argtypmods : Nat → Int
  argnames : Nat → Option String
  argmodes : Nat → Char

/-- The assignment `a[i] = v` on an array embedded as a map. -/
def setAt {α : Type} (a : Nat → α) (i : Nat) (v : α) : Nat → α :=
  fun j => if j = i then v else a j

/-- What a `pltsql_declare_variable` call leaves behind. -/
structure DeclareResult where
  args : Option InlineCodeBlockArgs
  fcinfo : FunctionCallInfoBaseData
  out : Outcome

/-- `pltsql_declare_variable(Oid type, int32 typmod, char *name, char mode, Datum value,`
`bool isnull, int index, InlineCodeBlockArgs **args, FunctionCallInfo *fcinfo)`.
`FUNC_MAX_ARGS` is a constant of the engine and is taken as a parameter; `index` is the
position of the parameter, counted from 0. The statement `(*fcinfo)->nargs++` computes the
sum as `int` and stores it back as `short`. The error is reported after the writes and the
increment. -/
def pltsql_declare_variable (FUNC_MAX_ARGS : Int) (type : Oid) (typmod : Int)
    (name : Option String) (mode : Char) (value : Datum) (isnull : Bool) (index : Nat)
    (args : Option InlineCodeBlockArgs) (fcinfo : FunctionCallInfoBaseData) : DeclareResult :=
  let args1 : Option InlineCodeBlockArgs :=
    args.map (fun a =>
      { a with
        argtypes := setAt a.argtypes index type,
        argtypmods := setAt a.argtypmods index typmod,
        argnames := setAt a.argnames index name,
        argmodes := setAt a.argmodes index mode })
  let stored : Datum := if isnull then 0 else value
  let fcinfo1 : FunctionCallInfoBaseData :=
    { fcinfo with args := setAt fcinfo.args (index + 2) ⟨stored, isnull⟩ }
  let fcinfo2 : FunctionCallInfoBaseData :=
    { fcinfo1 with nargs := toInt16 (fcinfo1.nargs + 1) }
  if fcinfo2.nargs > FUNC_MAX_ARGS then
    ⟨args1, fcinfo2, .error "ERRCODE_TOO_MANY_ARGUMENTS"
      "cannot pass more than %d arguments to a procedure"⟩
  else ⟨args1, fcinfo2, .ok⟩

/-- One parameter handed to `pltsql_declare_variable`. -/
structure ParamDecl where
  type : Oid
  typmod : Int
  name : Option String
  mode : Char
  value : Datum
  isnull : Bool
  deriving DecidableEq, Repr

/-- The call `pltsql_declare_variable` for one parameter record at a position. -/
def declareParam (FUNC_MAX_ARGS : Int) (p : ParamDecl) (index : Nat)
    (args : Option InlineCodeBlockArgs) (fcinfo : FunctionCallInfoBaseData) : DeclareResult :=
  pltsql_declare_variable FUNC_MAX_ARGS p.type p.typmod p.name p.mode p.value p.isnull index
    args fcinfo

/-- The loop `for (p in params) pltsql_declare_variable(..., &args, &fcinfo);` of the usage
comment above `pltsql_declare_variable`, the parameters taking the indexes `index`,
`index + 1`, ...; the first call that reports an error ends the construction. -/
def declareParams (FUNC_MAX_ARGS : Int) (index : Nat) (args : Option InlineCodeBlockArgs)
    (fcinfo : FunctionCallInfoBaseData) : List ParamDecl → DeclareResult
  | [] => ⟨args, fcinfo, .ok⟩
  | p :: ps =>
    let r := pltsql_declare_variable FUNC_MAX_ARGS p.type p.typmod p.name p.mode p.value
      p.isnull index args fcinfo
    match r.out with
    | .ok => declareParams FUNC_MAX_ARGS (index + 1) r.args r.fcinfo ps
    | _ => r

/-- The construction protocol of the usage comment above `pltsql_declare_variable`: slot 0
takes the code block and the count is set to 1, every parameter is declared in order from
index 0, then slot 1 takes the template-argument bundle and the count is incremented once
more. -/
def buildCallFrame (FUNC_MAX_ARGS : Int) (codeblock argsDatum : Datum)
    (args : Option InlineCodeBlockArgs) (fcinfo : FunctionCallInfoBaseData)
    (params : List ParamDecl) : DeclareResult :=
  let fcinfo0 : FunctionCallInfoBaseData :=
    { fcinfo with nargs := 1, args := setAt fcinfo.args 0 ⟨codeblock, false⟩ }
  let r := declareParams FUNC_MAX_ARGS 0 args fcinfo0 params
  match r.out with
  | .ok =>
    ⟨r.args,
      { r.fcinfo with
        nargs := toInt16 (r.fcinfo.nargs + 1),
        args := setAt r.fcinfo.args 1 ⟨argsDatum, false⟩ }, .ok⟩
  | _ => r

/-- A zeroed call frame of 100 slots, as `LOCAL_FCINFO(fcinfo, FUNC_MAX_ARGS)` and `MemSet`
leave it when `FUNC_MAX_ARGS` is 100. -/
def zeroFrame : FunctionCallInfoBaseData :=
  ⟨0, 100, fun _ => ⟨0, false⟩⟩

/-- A zeroed template-argument record. -/
def zeroArgs : InlineCodeBlockArgs :=
  ⟨0, fun _ => 0, fun _ => 0, fun _ => none, fun _ => 'i'⟩

/-- An input parameter of type 23 with the value 7. -/
def sampleParam : ParamDecl :=
  ⟨23, -1, some "@p", 'i', 7, false⟩

/-- What the construction protocol has built, with `FUNC_MAX_ARGS = 100`, once 98 parameters
are declared at the indexes 0 to 97: slot 0 holds the code block, the count started at 1. -/
def sampleAfter98 : DeclareResult :=
  declareParams 100 0 (some zeroArgs) ⟨1, 100, setAt zeroFrame.args 0 ⟨1, false⟩⟩
    (List.replicate 98 sampleParam)

/-- The four key fields of a `LOCKTAG`: three `uint32` and one `uint16`. -/
structure LOCKTAG where
  locktag_field1 : Nat
  locktag_field2 : Nat
  locktag_field3 : Nat
  locktag_field4 : Nat
  deriving DecidableEq, Repr

/-- `const uint64 PLTSQL_LOCKTAG_OFFSET = 0xABCDEF;` -/
def PLTSQL_LOCKTAG_OFFSET : Nat := 0xABCDEF

/-- Modelled from the spec: the engine macro `SET_LOCKTAG_ADVISORY(tag, id1, id2, id3, id4)` is
not part of these sources. Section 3 (LockKey): the key is the composite of the owning
database id, the two halves of the key and the class; the macro stores its four arguments in
the four fields. -/
def SET_LOCKTAG_ADVISORY (id1 id2 id3 id4 : Nat) : LOCKTAG :=
  ⟨id1, id2, id3, id4⟩

/-- The expression `((int64) key16) + PLTSQL_LOCKTAG_OFFSET`: the sign-extended key is
converted to `uint64` (the type of the offset) and the sum is taken modulo `2 ^ 64`. -/
def lockKey64 (key16 : Int) : Nat :=
  ((key16 % 2 ^ 64).toNat + PLTSQL_LOCKTAG_OFFSET) % 2 ^ 64

/-- The macro `SET_LOCKTAG_INT16(tag, key16)`; each `(uint32)` cast keeps the low 32 bits. -/
def SET_LOCKTAG_INT16 (MyDatabaseId : Nat) (key16 : Int) : LOCKTAG :=
  SET_LOCKTAG_ADVISORY MyDatabaseId ((lockKey64 key16 >>> 32) % 2 ^ 32)
    (lockKey64 key16 % 2 ^ 32) 3

/-! ## Procedure signature resolver: `pltsql_read_procedure_info` -/

/-- The conversion of a C integer to a 32-bit unsigned type such as `Oid`. -/
def toUInt32 (x : Int) : Nat :=
  (x % 2 ^ 32).toNat

/-- The conversion of a 32-bit word to `int`: the two's complement reading. -/
def toInt32 (x : Nat) : Int :=
  if x % 2 ^ 32 < 2 ^ 31 then ((x % 2 ^ 32 : Nat) : Int) else ((x % 2 ^ 32 : Nat) : Int) - 2 ^ 32

/-- The routine kinds of `pg_proc.prokind`. -/
inductive ProKind where
  | PROKIND_FUNCTION
  | PROKIND_AGGREGATE
  | PROKIND_WINDOW
  | PROKIND_PROCEDURE
  deriving DecidableEq, Repr

/-- The fields of a `pg_proc` row that the resolver reads. -/
structure Form_pg_proc where
  proname : String
  prokind : ProKind
  proretset : Bool
  prorettype : Oid
  pronargs : Int
  deriving DecidableEq, Repr

/-- The fields of a `pg_type` row that the resolver reads. -/
structure Form_pg_type where
  typname : String
  typcollation : Oid
  deriving DecidableEq, Repr

/-- What the resolver takes from outside these sources: three type identifiers of the
catalog, the parser `raw_parser` (field `rawParser`, reduced to the routine name of the
call statement it yields for a text), name resolution (the identifiers of the candidates, in order), the two catalog
lookups (`none`: no such row) and `probin_read_ret_typmod`, the reader of the return typmod
stored when the function was created. -/
structure CatalogEnv where
  INT4OID : Oid
  RECORDOID : Oid
  VOIDOID : Oid
  rawParser : String → List String
  FuncnameGetCandidates : List String → List Oid
  SearchSysCache1 : Oid → Option Form_pg_proc
  typeidType : Oid → Option Form_pg_type
  probin_read_ret_typmod : Oid → Int → Oid → Int

/-- The four values the resolver hands back through its output pointers (each pointer may be
`NULL`, in which case that value is dropped): `bool *is_proc`, `Oid *typid`, `Oid *typmod`,
`int *collation`. -/
structure RoutineSignature where
  is_proc : Bool
  typid : Oid
  typmod : Oid
  collation : Int
  deriving DecidableEq, Repr

/-- The branch `if (isStoredProcedure) ... else ...` of `pltsql_read_procedure_info`, with
the looked-up row when there is one. -/
def signatureOf (env : CatalogEnv) (func_oid : Oid) (isStoredProcedure : Bool)
    (proc : Option Form_pg_proc) : Outcome × Option RoutineSignature :=
  if isStoredProcedure then
    (.ok, some ⟨true, env.INT4OID, toUInt32 (-1), -1⟩)
  else
    match proc with
    | none => (.fault "proc is NULL", none)
    | some pr =>
      if pr.proretset then
        (.error "ERRCODE_FEATURE_NOT_SUPPORTED"
          "The request for procedure \"%s\" failed because \"%s\" isa SET-returning function",
          none)
      else if pr.prorettype = env.RECORDOID ∨ pr.prorettype = env.VOIDOID then
        (.error "ERRCODE_FEATURE_NOT_SUPPORTED"
          "The request for procedure \"%s\" failed because \"%s\" isnot a scalar-valued function",
          none)
      else
        match env.typeidType pr.prorettype with
        | none => (.error "XX000" "cache lookup failed for type %u", none)
        | some typtup =>
          (.ok, some ⟨false, pr.prorettype,
            toUInt32 (env.probin_read_ret_typmod func_oid pr.pronargs pr.prorettype),
            toInt32 typtup.typcollation⟩)

/-- `pltsql_read_procedure_info(StringInfo inout_str, bool *is_proc, Oid *typid,`
`Oid *typmod, int *collation)`. -/
def pltsql_read_procedure_info (env : CatalogEnv) (inout_str : String) :
    Outcome × Option RoutineSignature :=
  let funcname := env.rawParser ("EXECUTE " ++ inout_str)
  match env.FuncnameGetCandidates funcname with
  | [] => signatureOf env 0 true none
  | func_oid :: next =>
    if next ≠ [] then
      (.error "ERRCODE_AMBIGUOUS_FUNCTION" "more than one function named \"%s\"", none)
    else
      match env.SearchSysCache1 func_oid with
      | none => (.error "XX000" "cache lookup failed for function %d", none)
      | some pr =>
        signatureOf env func_oid (decide (pr.prokind = .PROKIND_PROCEDURE)) (some pr)

/-- A small catalog: `sp_one` is a procedure, `f_int` a function returning type 23,
`f_set` a set-returning function, `f_void` a function returning void, and the name `dup`
resolves to two routines. -/
def sampleCatalog : CatalogEnv where
  INT4OID := 23
  RECORDOID := 2249
  VOIDOID := 2278
  rawParser text := [text.drop 8]
  FuncnameGetCandidates name :=
    if name = ["sp_one"] then [100]
    else if name = ["f_int"] then [101]
    else if name = ["f_set"] then [102]
    else if name = ["f_void"] then [103]
    else if name = ["dup"] then [101, 102]
    else []
  SearchSysCache1 oid :=
    if oid = 100 then some ⟨"sp_one", .PROKIND_PROCEDURE, false, 2278, 0⟩
    else if oid = 101 then some ⟨"f_int", .PROKIND_FUNCTION, false, 1043, 1⟩
    else if oid = 102 then some ⟨"f_set", .PROKIND_FUNCTION, true, 23, 0⟩
    else if oid = 103 then some ⟨"f_void", .PROKIND_FUNCTION, false, 2278, 0⟩
    else none
  typeidType oid :=
    if oid = 23 then some ⟨"int4", 0⟩
    else if oid = 1043 then some ⟨"varchar", 100⟩
    else none
  probin_read_ret_typmod _ _ _ := 24

/-! ## Default typmod of sys types: `pltsql_check_or_set_default_typmod` -/

/-- The fields of the node `TypeName` that the routine reads: the name list (a list of string
nodes) and the `%TYPE` flag. -/
structure TypeName where
  names : List String
  pct_type : Bool
  location : Int
  deriving DecidableEq, Repr

/-- What the routine takes from outside these sources: the constant `VARHDRSZ`, the engine
routine `DeconstructQualifiedName` (the schema name, if the name is qualified, and the type
name), `typenameGetSchemaOID(typname, true)` and `get_namespace_oid(name, true)`. -/
structure TypeEnv where
  VARHDRSZ : Int
  DeconstructQualifiedName : List String → Option String × String
  typenameGetSchemaOID : String → Oid
  get_namespace_oid : String → Oid

/-- The constant `TSQLMaxTypmod`; its value -8000 is given in the comment above
`pltsql_check_or_set_default_typmod`. -/
def TSQLMaxTypmod : Int := -8000

/-- The computation of `is_sys_schema`: a qualified name is compared with "sys", an
unqualified one is looked up on the search path and its schema compared with the id of the
schema "sys". -/
def is_sys_schema (env : TypeEnv) (names : List String) : Bool :=
  match (env.DeconstructQualifiedName names).1 with
  | some schemaname => schemaname == "sys"
  | none =>
    env.get_namespace_oid "sys"
      == env.typenameGetSchemaOID (env.DeconstructQualifiedName names).2

/-- The body of `if (is_sys_schema)`: the new typmod and the way the routine leaves. -/
def sysTypmod (env : TypeEnv) (typname : String) (typmod : Int) (is_cast : Bool) :
    Int × Outcome :=
  if typmod = -1 then
    if typname = "varchar" ∨ typname = "nvarchar" ∨ typname = "nchar" ∨
        typname = "varbinary" ∨ typname = "binary" ∨ typname = "bpchar" then
      if is_cast then (30 + env.VARHDRSZ, .ok) else (1 + env.VARHDRSZ, .ok)
    else if typname = "smalldatetime" then (0, .ok)
    else if typname = "decimal" then (1179652, .ok)
    else (typmod, .ok)
  else if typmod = TSQLMaxTypmod then
    if typname = "varchar" ∨ typname = "nvarchar" ∨ typname = "varbinary" then (-1, .ok)
    else
      (typmod, .error "ERRCODE_INVALID_PARAMETER_VALUE"
        "Incorrect syntax near the keyword \x27%s\x27.")
  else if typmod > 8000 + env.VARHDRSZ ∧ (typname = "varchar" ∨ typname = "bpchar") then
    (typmod, .error "ERRCODE_INVALID_PARAMETER_VALUE"
      "The size \x27%d\x27 exceeds the maximum allowed (%d) for \x27%s\x27 datatype.")
  else if typmod > 4000 + env.VARHDRSZ ∧ (typname = "nvarchar" ∨ typname = "nchar") then
    (typmod, .error "ERRCODE_INVALID_PARAMETER_VALUE"
      "The size \x27%d\x27 exceeds the maximum allowed (%d) for \x27%s\x27 datatype.")
  else (typmod, .ok)

/-- `pltsql_check_or_set_default_typmod(TypeName *typeName, int32 *typmod, bool is_cast)`:
the typmod the pointer holds after the call and the way the call leaves. The
`Assert(sql_dialect == SQL_DIALECT_TSQL)` is compiled out of production builds. -/
def pltsql_check_or_set_default_typmod (env : TypeEnv) (typeName : TypeName) (typmod : Int)
    (is_cast : Bool) : Int × Outcome :=
  if typeName.names = [] ∨ typeName.pct_type = true then (typmod, .ok)
  else if is_sys_schema env typeName.names then
    sysTypmod env (env.DeconstructQualifiedName typeName.names).2 typmod is_cast
  else (typmod, .ok)

/-- A type environment in which `VARHDRSZ` is 4, a name list of one or two names is taken
apart in the usual way, the schema "sys" has the id 11 and only `varchar` and `nvarchar` are
found in it on the search path. -/
def sampleTypeEnv : TypeEnv where
  VARHDRSZ := 4
  DeconstructQualifiedName names :=
    match names with
    | [t] => (none, t)
    | [sch, t] => (some sch, t)
    | _ => (none, "")
  typenameGetSchemaOID t := if t = "varchar" ∨ t = "nvarchar" then 11 else 2200
  get_namespace_oid n := if n = "sys" then 11 else 0

/-! ## Theorems: nested transaction controller -/

theorem publishTrancount_count {σ : Type} (s : Session σ) :
    (publishTrancount s).NestedTranCount = s.NestedTranCount := by
  unfold publishTrancount
  split <;> rfl

theorem publishTrancount_xact {σ : Type} (s : Session σ) :
    (publishTrancount s).xact = s.xact := by
  unfold publishTrancount
  split <;> rfl

theorem publishTrancount_installed {σ : Type} (s : Session σ)
    (hp : s.plugin_ptr = true) (hs : s.set_at_at_stat_var = true) :
    (publishTrancount s).stat_calls = ⟨"trancount", s.NestedTranCount, 0⟩ :: s.stat_calls := by
  simp [publishTrancount, hp, hs]

theorem start_count {σ : Type} (E : Engine σ) (n : Option String) (s : Session σ) :
    (PLTsqlStartTransaction E n s).NestedTranCount = s.NestedTranCount + 1 := by
  unfold PLTsqlStartTransaction
  simp only [publishTrancount_count]
  split <;> rfl

theorem start_active {σ : Type} (E : Engine σ)
    (hb : ∀ x, E.IsTransactionBlockActive (E.BeginTransactionBlock x) = true)
    (hn : ∀ n x, E.IsTransactionBlockActive (E.SetTopTransactionName n x)
      = E.IsTransactionBlockActive x)
    (n : Option String) (s : Session σ) :
    E.IsTransactionBlockActive (PLTsqlStartTransaction E n s).xact = true := by
  unfold PLTsqlStartTransaction
  simp only [publishTrancount_xact]
  cases ha : E.IsTransactionBlockActive s.xact with
  | true => simp [ha]
  | false =>
    cases n with
    | none => simp [ha, hb]
    | some t => simp [ha, hb, hn]

theorem runCalls_append {σ : Type} (E : Engine σ) (a b : List TxnCall) (s : Session σ) :
    runCalls E s (a ++ b) = runCalls E (runCalls E s a) b := by
  induction a generalizing s with
  | nil => rfl
  | cons c cs ih => simp [runCalls, ih]

theorem allOk_append {σ : Type} (E : Engine σ) (a b : List TxnCall) (s : Session σ) :
    allOk E s (a ++ b) = (allOk E s a && allOk E (runCalls E s a) b) := by
  induction a generalizing s with
  | nil => simp [allOk, runCalls]
  | cons c cs ih => simp [allOk, runCalls, ih, Bool.and_assoc]

theorem starts_count {σ : Type} (E : Engine σ) (names : List (Option String))
    (s : Session σ) :
    (runCalls E s (names.map TxnCall.start)).NestedTranCount
      = s.NestedTranCount + names.length := by
  induction names generalizing s with
  | nil => simp [runCalls]
  | cons n ns ih =>
    simp only [List.map_cons, runCalls, stepCall, ih, start_count, List.length_cons]
    push_cast
    ring

theorem starts_allOk {σ : Type} (E : Engine σ) (names : List (Option String))
    (s : Session σ) : allOk E s (names.map TxnCall.start) = true := by
  induction names generalizing s with
  | nil => rfl
  | cons n ns ih => simp [allOk, stepCall, ih]

theorem starts_active {σ : Type} (E : Engine σ)
    (hb : ∀ x, E.IsTransactionBlockActive (E.BeginTransactionBlock x) = true)
    (hn : ∀ n x, E.IsTransactionBlockActive (E.SetTopTransactionName n x)
      = E.IsTransactionBlockActive x)
    (names : List (Option String)) (s : Session σ)
    (h : names ≠ [] ∨ E.IsTransactionBlockActive s.xact = true) :
    E.IsTransactionBlockActive (runCalls E s (names.map TxnCall.start)).xact = true := by
  induction names generalizing s with
  | nil =>
    rcases h with h | h
    · exact absurd rfl h
    · simpa [runCalls] using h
  | cons n ns ih =>
    simp only [List.map_cons, runCalls, stepCall]
    exact ih _ (Or.inr (start_active E hb hn n s))

theorem commits_count {σ : Type} (E : Engine σ)
    (commits : List (Option QueryCompletion × Bool)) (s : Session σ)
    (hlen : (commits.length : Int) ≤ s.NestedTranCount)
    (hact : commits ≠ [] → E.IsTransactionBlockActive s.xact = true) :
    allOk E s (commits.map (fun p => TxnCall.commit p.1 p.2)) = true ∧
    (runCalls E s (commits.map (fun p => TxnCall.commit p.1 p.2))).NestedTranCount
      = s.NestedTranCount - commits.length := by
  induction commits generalizing s with
  | nil => simp [allOk, runCalls]
  | cons c cs ih =>
    have ha : E.IsTransactionBlockActive s.xact = true := hact (by simp)
    simp only [List.length_cons] at hlen
    push_cast at hlen
    simp only [List.map_cons, allOk, runCalls, stepCall, List.length_cons]
    by_cases h1 : s.NestedTranCount ≤ 1
    · have hcs : cs = [] := by
        have : (cs.length : Int) ≤ 0 := by omega
        have h0 : cs.length = 0 := by omega
        exact List.length_eq_zero.mp h0
      subst hcs
      have hc1 : s.NestedTranCount = 1 := by
        simp only [List.length_nil] at hlen
        omega
      simp [PLTsqlCommitTransaction, h1, RequireTransactionBlock, ha, allOk, runCalls,
        publishTrancount_count, hc1]
    · have hstep : (PLTsqlCommitTransaction E c.1 c.2 s).st
          = publishTrancount { s with NestedTranCount := s.NestedTranCount - 1 } := by
        simp [PLTsqlCommitTransaction, h1]
      have hout : (PLTsqlCommitTransaction E c.1 c.2 s).out = Outcome.ok := by
        simp [PLTsqlCommitTransaction, h1]
      have := ih (publishTrancount { s with NestedTranCount := s.NestedTranCount - 1 })
        (by rw [publishTrancount_count]; simp only; omega)
        (by intro _; rw [publishTrancount_xact]; exact ha)
      rw [hstep]
      refine ⟨by simp [hout, this.1], ?_⟩
      rw [this.2, publishTrancount_count]
      push_cast
      ring

/-- C1: every `PLTsqlStartTransaction` call raises `NestedTranCount` by exactly one, whatever
the engine state and the name; hence from a session with `NestedTranCount = 0`, after the
start calls for any list of (possibly absent) names the counter equals the number of calls. -/
theorem start_raises_count_to_call_count {σ : Type} (E : Engine σ) :
    (∀ (s : Session σ) (n : Option String),
      (PLTsqlStartTransaction E n s).NestedTranCount = s.NestedTranCount + 1) ∧
    (∀ (s : Session σ) (names : List (Option String)), s.NestedTranCount = 0 →
      (runCalls E s (names.map TxnCall.start)).NestedTranCount = names.length) := by
  refine ⟨fun s n => start_count E n s, fun s names h0 => ?_⟩
  rw [starts_count, h0]
  simp

theorem start_raises_count_to_call_count_witness :
    sampleIdle.NestedTranCount = 0 ∧
    (runCalls sampleEngine sampleIdle
      ([none, some "t1", none].map TxnCall.start)).NestedTranCount = 3 :=
  ⟨rfl, (start_raises_count_to_call_count sampleEngine).2 sampleIdle [none, some "t1", none] rfl⟩

/-- C2: from the idle state (counter 0, no block active), after `n` start calls followed by
`k` commit calls with `1 ≤ k ≤ n` (any completion records and chain flags, any verdict of the
engine), every call has returned normally and the counter is `n - k`; so it is zero exactly
when `k = n`. The engine is assumed to open the block on begin and to keep it open when the
block is named. -/
theorem commit_counts_down {σ : Type} (E : Engine σ)
    (hb : ∀ x, E.IsTransactionBlockActive (E.BeginTransactionBlock x) = true)
    (hn : ∀ n x, E.IsTransactionBlockActive (E.SetTopTransactionName n x)
      = E.IsTransactionBlockActive x)
    (s : Session σ) (h0 : s.NestedTranCount = 0)
    (names : List (Option String)) (commits : List (Option QueryCompletion × Bool))
    (hk1 : 1 ≤ commits.length) (hkn : commits.length ≤ names.length) :
    allOk E s (names.map TxnCall.start ++ commits.map (fun p => TxnCall.commit p.1 p.2)) = true ∧
    (runCalls E s (names.map TxnCall.start
        ++ commits.map (fun p => TxnCall.commit p.1 p.2))).NestedTranCount
      = (names.length : Int) - commits.length ∧
    ((runCalls E s (names.map TxnCall.start
        ++ commits.map (fun p => TxnCall.commit p.1 p.2))).NestedTranCount = 0
      ↔ commits.length = names.length) := by
  have hne : names ≠ [] := by
    intro h
    subst h
    simp only [List.length_nil] at hkn
    omega
  have hcnt := starts_count E names s
  have hact := starts_active E hb hn names s (Or.inl hne)
  have hc := commits_count E commits (runCalls E s (names.map TxnCall.start))
    (by rw [hcnt, h0]; simp; exact_mod_cast hkn) (fun _ => hact)
  have hfin : (runCalls E s (names.map TxnCall.start
      ++ commits.map (fun p => TxnCall.commit p.1 p.2))).NestedTranCount
      = (names.length : Int) - commits.length := by
    rw [runCalls_append, hc.2, hcnt, h0]
    ring
  refine ⟨?_, hfin, ?_⟩
  · rw [allOk_append, starts_allOk, hc.1]
    rfl
  · rw [hfin]
    omega

theorem commit_counts_down_witness :
    allOk sampleEngine sampleIdle ([some "outer", none].map TxnCall.start
      ++ [(none, false), (none, true)].map (fun p => TxnCall.commit p.1 p.2)) = true ∧
    (runCalls sampleEngine sampleIdle ([some "outer", none].map TxnCall.start
      ++ [(none, false), (none, true)].map
        (fun p => TxnCall.commit p.1 p.2))).NestedTranCount = ((2 : Nat) : Int) - (2 : Nat) ∧
    ((runCalls sampleEngine sampleIdle ([some "outer", none].map TxnCall.start
      ++ [(none, false), (none, true)].map
        (fun p => TxnCall.commit p.1 p.2))).NestedTranCount = 0 ↔ 2 = 2) :=
  commit_counts_down sampleEngine (fun _ => rfl) (fun _ _ => rfl) sampleIdle rfl
    [some "outer", none] [(none, false), (none, true)] (by decide) (by decide)

/-- C3: with an active transaction block, at every depth, `PLTsqlRollbackTransaction` called
with a name for which `IsTopTransactionName` succeeds returns normally, hands the block to the
engine's `UserAbortTransactionBlock` and sets `NestedTranCount` to 0. -/
theorem rollback_top_name_resets_count {σ : Type} (E : Engine σ) (s : Session σ)
    (txnName : Option String) (qc : Option QueryCompletion) (chain : Bool)
    (hact : E.IsTransactionBlockActive s.xact = true)
    (htop : E.IsTopTransactionName txnName s.xact = true) :
    (PLTsqlRollbackTransaction E txnName qc chain s).out = Outcome.ok ∧
    (PLTsqlRollbackTransaction E txnName qc chain s).st.xact
      = E.UserAbortTransactionBlock chain s.xact ∧
    (PLTsqlRollbackTransaction E txnName qc chain s).st.NestedTranCount = 0 := by
  simp [PLTsqlRollbackTransaction, htop, RequireTransactionBlock, hact, publishTrancount_xact,
    publishTrancount_count]

theorem rollback_top_name_resets_count_witness :
    (PLTsqlRollbackTransaction sampleEngine (some "t") none false sampleNested).out
      = Outcome.ok ∧
    (PLTsqlRollbackTransaction sampleEngine (some "t") none false sampleNested).st.xact
      = sampleEngine.UserAbortTransactionBlock false sampleNested.xact ∧
    (PLTsqlRollbackTransaction sampleEngine (some "t") none false sampleNested).st.NestedTranCount
      = 0 :=
  rollback_top_name_resets_count sampleEngine sampleNested (some "t") none false rfl
    (by decide)

/-- C4 (as stated, refuted): on the sample engine, with an active block whose recorded name
is "t", the rollback to the savepoint "sp" called without a completion record takes the
rollback-to-savepoint branch and returns normally, but reports no completion signal: the
completion record after the call is still absent. -/
theorem rollback_savepoint_without_record_is_silent :
    sampleEngine.IsTransactionBlockActive sampleNested.xact = true ∧
    sampleEngine.IsTopTransactionName (some "sp") sampleNested.xact = false ∧
    (PLTsqlRollbackTransaction sampleEngine (some "sp") none false sampleNested).out
      = Outcome.ok ∧
    (PLTsqlRollbackTransaction sampleEngine (some "sp") none false sampleNested).st.xact
      = sampleEngine.RollbackAndReleaseSavepoint (some "sp")
          (sampleEngine.RollbackToSavepoint (some "sp") sampleNested.xact) ∧
    ¬ (∃ q, (PLTsqlRollbackTransaction sampleEngine (some "sp") none false sampleNested).qc
        = some q ∧ q.commandTag = CommandTag.CMDTAG_SAVEPOINT) := by
  refine ⟨rfl, by decide, ?_, ?_, ?_⟩
  · simp [PLTsqlRollbackTransaction, RequireTransactionBlock, sampleEngine, sampleNested]
  · simp [PLTsqlRollbackTransaction, RequireTransactionBlock, sampleEngine, sampleNested]
  · rintro ⟨q, hq, -⟩
    exact absurd hq (by simp [PLTsqlRollbackTransaction, RequireTransactionBlock, sampleEngine,
      sampleNested])

/-- C4 (amended): with an active transaction block and a name for which
`IsTopTransactionName` fails, `PLTsqlRollbackTransaction` takes the rollback-to-savepoint
branch: it returns normally, the engine state is the one left by `RollbackToSavepoint` then
`RollbackAndReleaseSavepoint`, and `NestedTranCount` is what it was before the call. A
completion record supplied by the caller comes back with the tag `CMDTAG_SAVEPOINT` (its
other field unchanged); when no record was supplied none comes back. -/
theorem rollback_savepoint_keeps_count {σ : Type} (E : Engine σ) (s : Session σ)
    (txnName : Option String) (qc : Option QueryCompletion) (chain : Bool)
    (hact : E.IsTransactionBlockActive s.xact = true)
    (htop : E.IsTopTransactionName txnName s.xact = false) :
    (PLTsqlRollbackTransaction E txnName qc chain s).out = Outcome.ok ∧
    (PLTsqlRollbackTransaction E txnName qc chain s).st.xact
      = E.RollbackAndReleaseSavepoint txnName (E.RollbackToSavepoint txnName s.xact) ∧
    (PLTsqlRollbackTransaction E txnName qc chain s).qc
      = qc.map (fun q => { q with commandTag := CommandTag.CMDTAG_SAVEPOINT }) ∧
    (PLTsqlRollbackTransaction E txnName qc chain s).st.NestedTranCount
      = s.NestedTranCount ∧
    (∀ q, qc = some q → (PLTsqlRollbackTransaction E txnName qc chain s).qc
      = some ⟨CommandTag.CMDTAG_SAVEPOINT, q.nprocessed⟩) ∧
    (qc = none → (PLTsqlRollbackTransaction E txnName qc chain s).qc = none) := by
  have hqc : (PLTsqlRollbackTransaction E txnName qc chain s).qc
      = qc.map (fun q => { q with commandTag := CommandTag.CMDTAG_SAVEPOINT }) := by
    simp [PLTsqlRollbackTransaction, htop, RequireTransactionBlock, hact]
  refine ⟨?_, ?_, hqc, ?_, ?_, ?_⟩
  · simp [PLTsqlRollbackTransaction, htop, RequireTransactionBlock, hact]
  · simp [PLTsqlRollbackTransaction, htop, RequireTransactionBlock, hact]
  · simp [PLTsqlRollbackTransaction, htop, RequireTransactionBlock, hact]
  · intro q hq
    rw [hqc, hq]
    rfl
  · intro hq
    rw [hqc, hq]
    rfl

theorem rollback_savepoint_keeps_count_witness :
    (PLTsqlRollbackTransaction sampleEngine (some "sp") (some ⟨.CMDTAG_ROLLBACK, 0⟩) false
      sampleNested).out = Outcome.ok ∧
    (PLTsqlRollbackTransaction sampleEngine (some "sp") (some ⟨.CMDTAG_ROLLBACK, 0⟩) false
      sampleNested).st.xact
      = sampleEngine.RollbackAndReleaseSavepoint (some "sp")
          (sampleEngine.RollbackToSavepoint (some "sp") sampleNested.xact) ∧
    (PLTsqlRollbackTransaction sampleEngine (some "sp") (some ⟨.CMDTAG_ROLLBACK, 0⟩) false
      sampleNested).qc = some ⟨.CMDTAG_SAVEPOINT, 0⟩ ∧
    (PLTsqlRollbackTransaction sampleEngine (some "sp") (some ⟨.CMDTAG_ROLLBACK, 0⟩) false
      sampleNested).st.NestedTranCount = 2 :=
  have h := rollback_savepoint_keeps_count sampleEngine sampleNested (some "sp")
    (some ⟨.CMDTAG_ROLLBACK, 0⟩) false rfl (by decide)
  ⟨h.1, h.2.1, h.2.2.1, h.2.2.2.1⟩

theorem sampleEngine_contract : BlockContract sampleEngine where
  begin_opens := fun _ => rfl
  name_keeps := fun _ _ => rfl
  end_closes := fun _ _ _ => rfl
  abort_closes := fun _ _ _ => rfl
  savepoint_keeps := fun _ _ h => h

theorem stepCall_invariant {σ : Type} (E : Engine σ) (hE : BlockContract E) (s : Session σ)
    (c : TxnCall)
    (hpos : 0 ≤ s.NestedTranCount)
    (hinv : s.NestedTranCount = 0 ↔ E.IsTransactionBlockActive s.xact = false) :
    0 ≤ (stepCall E s c).st.NestedTranCount ∧
    ((stepCall E s c).st.NestedTranCount = 0
      ↔ E.IsTransactionBlockActive (stepCall E s c).st.xact = false) := by
  cases c with
  | start n =>
    simp only [stepCall, start_count, start_active E hE.begin_opens hE.name_keeps]
    constructor
    · omega
    · constructor
      · intro h
        omega
      · intro h
        exact absurd h (by simp)
  | commit qc chain =>
    simp only [stepCall, PLTsqlCommitTransaction]
    by_cases h1 : s.NestedTranCount ≤ 1
    · cases ha : E.IsTransactionBlockActive s.xact with
      | false => simp [h1, RequireTransactionBlock, ha, hpos, hinv]
      | true =>
        simp [h1, RequireTransactionBlock, ha, publishTrancount_count, publishTrancount_xact,
          hE.end_closes chain s.xact ha]
    · have hact : E.IsTransactionBlockActive s.xact = true := by
        cases ha : E.IsTransactionBlockActive s.xact with
        | true => rfl
        | false =>
          have := hinv.mpr ha
          omega
      simp only [h1, if_false, publishTrancount_count, publishTrancount_xact, hact]
      constructor
      · omega
      · constructor
        · intro h
          omega
        · intro h
          exact absurd h (by simp)
  | rollback n qc chain =>
    simp only [stepCall, PLTsqlRollbackTransaction]
    cases ha : E.IsTransactionBlockActive s.xact with
    | false =>
      cases ht : E.IsTopTransactionName n s.xact <;>
        simp [RequireTransactionBlock, ha, hpos, hinv]
    | true =>
      cases ht : E.IsTopTransactionName n s.xact with
      | true =>
        simp [RequireTransactionBlock, ha, publishTrancount_count, publishTrancount_xact,
          hE.abort_closes chain s.xact ha]
      | false =>
        have hne : s.NestedTranCount ≠ 0 := by
          intro h0
          have := hinv.mp h0
          rw [ha] at this
          exact absurd this (by simp)
        simp [RequireTransactionBlock, ha, hE.savepoint_keeps n s.xact ha, hpos, hne]

theorem runCalls_invariant {σ : Type} (E : Engine σ) (hE : BlockContract E)
    (calls : List TxnCall) (s : Session σ)
    (hpos : 0 ≤ s.NestedTranCount)
    (hinv : s.NestedTranCount = 0 ↔ E.IsTransactionBlockActive s.xact = false) :
    0 ≤ (runCalls E s calls).NestedTranCount ∧
    ((runCalls E s calls).NestedTranCount = 0
      ↔ E.IsTransactionBlockActive (runCalls E s calls).xact = false) := by
  induction calls generalizing s with
  | nil => exact ⟨hpos, hinv⟩
  | cons c cs ih =>
    have h := stepCall_invariant E hE s c hpos hinv
    exact ih _ h.1 h.2

/-- C5: over an engine that keeps the block contract, in every session reached from an
initial one (`NestedTranCount = 0`, no block active) by any sequence of start, commit and
rollback calls (any names, completion records and chain flags, whatever verdict the engine
gives on ending a block, failing calls included), `NestedTranCount = 0` holds if and only if
no transaction block is active. -/
theorem count_zero_iff_no_block {σ : Type} (E : Engine σ) (hE : BlockContract E)
    (s0 : Session σ) (h0 : s0.NestedTranCount = 0)
    (hidle : E.IsTransactionBlockActive s0.xact = false) (calls : List TxnCall) :
    (runCalls E s0 calls).NestedTranCount = 0
      ↔ E.IsTransactionBlockActive (runCalls E s0 calls).xact = false :=
  (runCalls_invariant E hE calls s0 (by omega) (by simp [h0, hidle])).2

theorem count_zero_iff_no_block_witness :
    (runCalls sampleEngine sampleIdle
        [.start (some "t"), .start none, .commit none true, .rollback (some "sp") none false,
          .rollback (some "t") none false, .commit none false]).NestedTranCount = 0
      ↔ sampleEngine.IsTransactionBlockActive (runCalls sampleEngine sampleIdle
        [.start (some "t"), .start none, .commit none true, .rollback (some "sp") none false,
          .rollback (some "t") none false, .commit none false]).xact = false :=
  count_zero_iff_no_block sampleEngine sampleEngine_contract sampleIdle rfl rfl _

/-- C6 (as stated, refuted): on the sample engine, with `NestedTranCount = 1`, an active
block and a failed end-of-block attempt, the commit called without a completion record (as
`pltsql_commit_txn` calls it) returns normally and resets the counter, but no "rolled back"
signal is handed back: the completion record after the call is still absent. -/
theorem commit_failure_without_record_is_silent :
    sampleFailedOpen.NestedTranCount ≤ 1 ∧
    sampleEngine.IsTransactionBlockActive sampleFailedOpen.xact = true ∧
    (sampleEngine.EndTransactionBlock false sampleFailedOpen.xact).1 = false ∧
    (PLTsqlCommitTransaction sampleEngine none false sampleFailedOpen).out = Outcome.ok ∧
    (pltsql_commit_txn sampleEngine sampleFailedOpen).2 = Outcome.ok ∧
    ¬ (∃ q, (PLTsqlCommitTransaction sampleEngine none false sampleFailedOpen).qc = some q ∧
        q.commandTag = CommandTag.CMDTAG_ROLLBACK) := by
  refine ⟨by decide, rfl, rfl, rfl, rfl, ?_⟩
  rintro ⟨q, hq, -⟩
  exact absurd hq (by simp [PLTsqlCommitTransaction, RequireTransactionBlock, sampleEngine,
    sampleFailedOpen])

/-- C6 (amended): when `PLTsqlCommitTransaction` is called with `NestedTranCount ≤ 1` and an
active block and the engine's end-of-block attempt reports a failed commit, the call returns
normally, `NestedTranCount` is 0 afterwards, and a completion record supplied by the caller
comes back with the tag `CMDTAG_ROLLBACK` (its other field unchanged), whatever tag it held;
when no record was supplied none comes back. -/
theorem commit_failure_marks_supplied_record {σ : Type} (E : Engine σ) (s : Session σ)
    (qc : Option QueryCompletion) (chain : Bool)
    (h1 : s.NestedTranCount ≤ 1)
    (hact : E.IsTransactionBlockActive s.xact = true)
    (hfail : (E.EndTransactionBlock chain s.xact).1 = false) :
    (PLTsqlCommitTransaction E qc chain s).out = Outcome.ok ∧
    (PLTsqlCommitTransaction E qc chain s).st.NestedTranCount = 0 ∧
    (PLTsqlCommitTransaction E qc chain s).qc
      = qc.map (fun q => { q with commandTag := CommandTag.CMDTAG_ROLLBACK }) ∧
    (∀ q, qc = some q → (PLTsqlCommitTransaction E qc chain s).qc
      = some ⟨CommandTag.CMDTAG_ROLLBACK, q.nprocessed⟩) ∧
    (qc = none → (PLTsqlCommitTransaction E qc chain s).qc = none) := by
  have hqc : (PLTsqlCommitTransaction E qc chain s).qc
      = qc.map (fun q => { q with commandTag := CommandTag.CMDTAG_ROLLBACK }) := by
    simp [PLTsqlCommitTransaction, h1, RequireTransactionBlock, hact, hfail]
  refine ⟨?_, ?_, hqc, ?_, ?_⟩
  · simp [PLTsqlCommitTransaction, h1, RequireTransactionBlock, hact]
  · simp [PLTsqlCommitTransaction, h1, RequireTransactionBlock, hact, publishTrancount_count]
  · intro q hq
    rw [hqc, hq]
    rfl
  · intro hq
    rw [hqc, hq]
    rfl

theorem commit_failure_marks_supplied_record_witness :
    (PLTsqlCommitTransaction sampleEngine (some ⟨.CMDTAG_COMMIT, 0⟩) false
      sampleFailedOpen).out = Outcome.ok ∧
    (PLTsqlCommitTransaction sampleEngine (some ⟨.CMDTAG_COMMIT, 0⟩) false
      sampleFailedOpen).st.NestedTranCount = 0 ∧
    (PLTsqlCommitTransaction sampleEngine (some ⟨.CMDTAG_COMMIT, 0⟩) false
      sampleFailedOpen).qc = some ⟨.CMDTAG_ROLLBACK, 0⟩ :=
  have h := commit_failure_marks_supplied_record sampleEngine sampleFailedOpen
    (some ⟨.CMDTAG_COMMIT, 0⟩) false (by decide) rfl rfl
  ⟨h.1, h.2.1, h.2.2.1⟩

/-- C7: when no transaction block is active, `PLTsqlCommitTransaction` with
`NestedTranCount ≤ 1` and `PLTsqlRollbackTransaction` with any name (so in its full-rollback
branch and in its rollback-to-savepoint branch) leave through an error, and the session after
the call is the session before it; in particular `NestedTranCount` and the count last
published under "trancount" are what they were. -/
theorem no_block_is_error_and_changes_nothing {σ : Type} (E : Engine σ) (s : Session σ)
    (hidle : E.IsTransactionBlockActive s.xact = false) :
    (∀ qc chain, s.NestedTranCount ≤ 1 →
      (PLTsqlCommitTransaction E qc chain s).out.isError = true ∧
      (PLTsqlCommitTransaction E qc chain s).st = s ∧
      (PLTsqlCommitTransaction E qc chain s).st.NestedTranCount = s.NestedTranCount ∧
      lastPublished (PLTsqlCommitTransaction E qc chain s).st "trancount"
        = lastPublished s "trancount") ∧
    (∀ txnName qc chain,
      (PLTsqlRollbackTransaction E txnName qc chain s).out.isError = true ∧
      (PLTsqlRollbackTransaction E txnName qc chain s).st = s ∧
      (PLTsqlRollbackTransaction E txnName qc chain s).st.NestedTranCount
        = s.NestedTranCount ∧
      lastPublished (PLTsqlRollbackTransaction E txnName qc chain s).st "trancount"
        = lastPublished s "trancount") := by
  constructor
  · intro qc chain h1
    have hst : (PLTsqlCommitTransaction E qc chain s).st = s := by
      simp [PLTsqlCommitTransaction, h1, RequireTransactionBlock, hidle]
    refine ⟨?_, hst, by rw [hst], by rw [hst]⟩
    simp [PLTsqlCommitTransaction, h1, RequireTransactionBlock, hidle, Outcome.isError]
  · intro txnName qc chain
    have hst : (PLTsqlRollbackTransaction E txnName qc chain s).st = s := by
      cases ht : E.IsTopTransactionName txnName s.xact <;>
        simp [PLTsqlRollbackTransaction, ht, RequireTransactionBlock, hidle]
    refine ⟨?_, hst, by rw [hst], by rw [hst]⟩
    cases ht : E.IsTopTransactionName txnName s.xact <;>
      simp [PLTsqlRollbackTransaction, ht, RequireTransactionBlock, hidle, Outcome.isError]

theorem no_block_is_error_and_changes_nothing_witness :
    (PLTsqlCommitTransaction sampleEngine none false sampleIdle).out.isError = true ∧
    (PLTsqlCommitTransaction sampleEngine none false sampleIdle).st = sampleIdle ∧
    (PLTsqlRollbackTransaction sampleEngine none none false sampleIdle).out.isError = true ∧
    (PLTsqlRollbackTransaction sampleEngine (some "sp") none false sampleIdle).out.isError
      = true ∧
    (PLTsqlRollbackTransaction sampleEngine (some "sp") none false sampleIdle).st
      = sampleIdle :=
  have h := no_block_is_error_and_changes_nothing sampleEngine sampleIdle rfl
  ⟨(h.1 none false (by decide)).1, (h.1 none false (by decide)).2.1,
    (h.2 none none false).1, (h.2 (some "sp") none false).1, (h.2 (some "sp") none false).2.1⟩

/-- C8 (as stated, refuted): on the sample engine with a sink installed, a successful
rollback to the savepoint "sp" publishes nothing: the sink, empty before the call, is empty
after it. -/
theorem rollback_savepoint_publishes_nothing :
    sampleNested.plugin_ptr = true ∧ sampleNested.set_at_at_stat_var = true ∧
    sampleNested.stat_calls = [] ∧
    (PLTsqlRollbackTransaction sampleEngine (some "sp") none false sampleNested).out
      = Outcome.ok ∧
    (PLTsqlRollbackTransaction sampleEngine (some "sp") none false sampleNested).st.stat_calls
      = [] ∧
    lastPublished
      (PLTsqlRollbackTransaction sampleEngine (some "sp") none false sampleNested).st
      "trancount" = none := by
  have hst : (PLTsqlRollbackTransaction sampleEngine (some "sp") none false
      sampleNested).st.stat_calls = [] := by
    simp [PLTsqlRollbackTransaction, RequireTransactionBlock, sampleEngine, sampleNested]
  refine ⟨rfl, rfl, rfl, ?_, hst, ?_⟩
  · simp [PLTsqlRollbackTransaction, RequireTransactionBlock, sampleEngine, sampleNested]
  · simp [lastPublished, hst]

/-- C8 (amended): when a status-variable sink is installed, `PLTsqlStartTransaction`, every
`PLTsqlCommitTransaction` that returns normally (outermost or nested branch) and every
`PLTsqlRollbackTransaction` that returns normally in its full-rollback branch send the sink
exactly one call `("trancount", NestedTranCount, 0)` carrying the counter's value at the end
of the operation; a rollback in the rollback-to-savepoint branch sends the sink nothing and
leaves the counter unchanged. -/
theorem publishes_final_count_except_savepoint_rollback {σ : Type} (E : Engine σ)
    (s : Session σ) (hp : s.plugin_ptr = true) (hs : s.set_at_at_stat_var = true) :
    (∀ txnName, (PLTsqlStartTransaction E txnName s).stat_calls
      = ⟨"trancount", (PLTsqlStartTransaction E txnName s).NestedTranCount, 0⟩
        :: s.stat_calls) ∧
    (∀ qc chain, (PLTsqlCommitTransaction E qc chain s).out = Outcome.ok →
      (PLTsqlCommitTransaction E qc chain s).st.stat_calls
        = ⟨"trancount", (PLTsqlCommitTransaction E qc chain s).st.NestedTranCount, 0⟩
          :: s.stat_calls) ∧
    (∀ txnName qc chain, E.IsTopTransactionName txnName s.xact = true →
      (PLTsqlRollbackTransaction E txnName qc chain s).out = Outcome.ok →
      (PLTsqlRollbackTransaction E txnName qc chain s).st.stat_calls
        = ⟨"trancount", (PLTsqlRollbackTransaction E txnName qc chain s).st.NestedTranCount, 0⟩
          :: s.stat_calls) ∧
    (∀ txnName qc chain, E.IsTopTransactionName txnName s.xact = false →
      (PLTsqlRollbackTransaction E txnName qc chain s).st.stat_calls = s.stat_calls ∧
      (PLTsqlRollbackTransaction E txnName qc chain s).st.NestedTranCount
        = s.NestedTranCount) := by
  refine ⟨?_, ?_, ?_, ?_⟩
  · intro txnName
    rw [start_count]
    unfold PLTsqlStartTransaction
    rw [publishTrancount_installed]
    · split <;> rfl
    · split <;> exact hp
    · split <;> exact hs
  · intro qc chain hok
    by_cases h1 : s.NestedTranCount ≤ 1
    · cases ha : E.IsTransactionBlockActive s.xact with
      | false =>
        simp [PLTsqlCommitTransaction, h1, RequireTransactionBlock, ha] at hok
      | true =>
        simp [PLTsqlCommitTransaction, h1, RequireTransactionBlock, ha, publishTrancount, hp, hs]
    · simp [PLTsqlCommitTransaction, h1, publishTrancount, hp, hs]
  · intro txnName qc chain ht hok
    cases ha : E.IsTransactionBlockActive s.xact with
    | false =>
      simp [PLTsqlRollbackTransaction, ht, RequireTransactionBlock, ha] at hok
    | true =>
      simp [PLTsqlRollbackTransaction, ht, RequireTransactionBlock, ha, publishTrancount, hp, hs]
  · intro txnName qc chain ht
    cases ha : E.IsTransactionBlockActive s.xact <;>
      simp [PLTsqlRollbackTransaction, ht, RequireTransactionBlock, ha]

theorem publishes_final_count_except_savepoint_rollback_witness :
    (PLTsqlStartTransaction sampleEngine none sampleNested).stat_calls
      = [⟨"trancount", 3, 0⟩] ∧
    (PLTsqlCommitTransaction sampleEngine none false sampleNested).st.stat_calls
      = [⟨"trancount", 1, 0⟩] ∧
    (PLTsqlRollbackTransaction sampleEngine (some "t") none false sampleNested).st.stat_calls
      = [⟨"trancount", 0, 0⟩] ∧
    (PLTsqlRollbackTransaction sampleEngine (some "sp") none false sampleNested).st.stat_calls
      = [] :=
  have h := publishes_final_count_except_savepoint_rollback sampleEngine sampleNested rfl rfl
  ⟨h.1 none, h.2.1 none false rfl, h.2.2.1 (some "t") none false (by decide) rfl,
    (h.2.2.2 (some "sp") none false (by decide)).1⟩

/-! ## Theorems: statement template rewriter -/

/-- C9: each of the eleven rewriters, handed a node whose tag is not the kind it expects,
leaves through the error `ERRCODE_SYNTAX_ERROR` with its "query is not ..." message and
returns the node exactly as it was, whatever the override arguments. -/
theorem mismatched_tag_is_error_and_node_kept :
    (∀ n a b, nodeTag n ≠ .T_AlterTableStmt → update_AlterTableStmt n a b
      = (n, .error "ERRCODE_SYNTAX_ERROR" "query is not a AlterTableStmt")) ∧
    (∀ n a b c, nodeTag n ≠ .T_CreateRoleStmt → update_CreateRoleStmt n a b c
      = (n, .error "ERRCODE_SYNTAX_ERROR" "query is not a CreateRoleStmt")) ∧
    (∀ n a, nodeTag n ≠ .T_AlterRoleStmt → update_AlterRoleStmt n a
      = (n, .error "ERRCODE_SYNTAX_ERROR" "query is not an AlterRoleStmt")) ∧
    (∀ n a b, nodeTag n ≠ .T_CreateSchemaStmt → update_CreateSchemaStmt n a b
      = (n, .error "ERRCODE_SYNTAX_ERROR" "query is not a CreateSchemaStmt")) ∧
    (∀ n a, nodeTag n ≠ .T_DropOwnedStmt → update_DropOwnedStmt n a
      = (n, .error "ERRCODE_SYNTAX_ERROR" "query is not a DropOwnedStmt")) ∧
    (∀ n a, nodeTag n ≠ .T_DropRoleStmt → update_DropRoleStmt n a
      = (n, .error "ERRCODE_SYNTAX_ERROR" "query is not a DropRoleStmt")) ∧
    (∀ n a, nodeTag n ≠ .T_DropStmt → update_DropStmt n a
      = (n, .error "ERRCODE_SYNTAX_ERROR" "query is not a DropStmt")) ∧
    (∀ n a b, nodeTag n ≠ .T_GrantRoleStmt → update_GrantRoleStmt n a b
      = (n, .error "ERRCODE_SYNTAX_ERROR" "query is not a GrantRoleStmt")) ∧
    (∀ n a b c, nodeTag n ≠ .T_GrantStmt → update_GrantStmt n a b c
      = (n, .error "ERRCODE_SYNTAX_ERROR" "query is not a GrantStmt")) ∧
    (∀ n a b, nodeTag n ≠ .T_RenameStmt → update_RenameStmt n a b
      = (n, .error "ERRCODE_SYNTAX_ERROR" "query is not a RenameStmt")) ∧
    (∀ n a, nodeTag n ≠ .T_ViewStmt → update_ViewStmt n a
      = (n, .error "ERRCODE_SYNTAX_ERROR" "query is not a ViewStmt")) := by
  refine ⟨?_, ?_, ?_, ?_, ?_, ?_, ?_, ?_, ?_, ?_, ?_⟩
  · intro n a b h
    cases n <;> first | rfl | exact absurd rfl h
  · intro n a b c h
    cases n <;> first | rfl | exact absurd rfl h
  · intro n a h
    cases n <;> first | rfl | exact absurd rfl h
  · intro n a b h
    cases n <;> first | rfl | exact absurd rfl h
  · intro n a h
    cases n <;> first | rfl | exact absurd rfl h
  · intro n a h
    cases n <;> first | rfl | exact absurd rfl h
  · intro n a h
    cases n <;> first | rfl | exact absurd rfl h
  · intro n a b h
    cases n <;> first | rfl | exact absurd rfl h
  · intro n a b c h
    cases n <;> first | rfl | exact absurd rfl h
  · intro n a b h
    cases n <;> first | rfl | exact absurd rfl h
  · intro n a h
    cases n <;> first | rfl | exact absurd rfl h

theorem mismatched_tag_is_error_and_node_kept_witness :
    nodeTag sampleRename ≠ .T_GrantStmt ∧
    update_GrantStmt sampleRename (some "t") (some "dbo") (some "bob")
      = (sampleRename, .error "ERRCODE_SYNTAX_ERROR" "query is not a GrantStmt") :=
  ⟨by decide, mismatched_tag_is_error_and_node_kept.2.2.2.2.2.2.2.2.1 sampleRename
    (some "t") (some "dbo") (some "bob") (by decide)⟩

theorem patchRoleOptions_none (l : List DefElem) : patchRoleOptions none none l = (l, .ok) := by
  induction l with
  | nil => rfl
  | cons d rest ih => simp [patchRoleOptions, ih]

theorem patchRoleOptions_keeps_other_names (member addto : Option String) (name : String)
    (hm : member = none ∨ name ≠ "rolemembers") (ha : addto = none ∨ name ≠ "addroleto")
    (l : List DefElem) :
    (patchRoleOptions member addto l).1.filter (fun d => d.defname == name)
      = l.filter (fun d => d.defname == name) := by
  induction l with
  | nil => rfl
  | cons d rest ih =>
    unfold patchRoleOptions
    by_cases h1 : (member.isSome && d.arg != DefArg.null && d.defname == "rolemembers") = true
    · have hd : d.defname = "rolemembers" := by
        simp only [Bool.and_eq_true, beq_iff_eq] at h1
        exact h1.2
      have hname : name ≠ "rolemembers" := by
        rcases hm with hm | hm
        · rw [hm] at h1
          simp at h1
        · exact hm
      have hne : (d.defname == name) = false := by
        rw [hd]
        exact beq_false_of_ne (Ne.symm hname)
      cases member with
      | none => simp at h1
      | some m =>
        simp only [h1, if_true]
        cases hres : (d.arg.setLastRolename m).2 <;>
          simp [hres, List.filter_cons, hne, ih]
    · simp only [h1]
      by_cases h2 : (addto.isSome && d.arg != DefArg.null && d.defname == "addroleto") = true
      · have hd : d.defname = "addroleto" := by
          simp only [Bool.and_eq_true, beq_iff_eq] at h2
          exact h2.2
        have hname : name ≠ "addroleto" := by
          rcases ha with ha | ha
          · rw [ha] at h2
            simp at h2
          · exact ha
        have hne : (d.defname == name) = false := by
          rw [hd]
          exact beq_false_of_ne (Ne.symm hname)
        cases addto with
        | none => simp at h2
        | some a =>
          simp only [h2, if_true]
          cases hres : (d.arg.setLastRolename a).2 <;>
            simp [hres, List.filter_cons, hne, ih]
      · simp only [h2]
        simp [List.filter_cons, ih]

theorem patchGrantObjects_frame (stmt : GrantStmt) (object obj_schema : Option String) :
    ∃ objs, (patchGrantObjects stmt object obj_schema).1 = { stmt with objects := objs } := by
  obtain ⟨is_grant, objtype, objects, privileges, grantees, grant_option⟩ := stmt
  cases objects with
  | nil => cases object <;> cases obj_schema <;> exact ⟨[], rfl⟩
  | cons a l =>
    cases object with
    | some obj => exact ⟨_, rfl⟩
    | none =>
      cases obj_schema with
      | some schema => exact ⟨_, rfl⟩
      | none => exact ⟨_, rfl⟩

/-- C10 (as stated, refuted): `update_AlterRoleStmt` with an absent role clears the role of
the template, `update_GrantRoleStmt` and `update_DropOwnedStmt` with empty lists clear the
lists of the template, and `update_RenameStmt` with absent names does not return normally. -/
theorem absent_override_is_not_always_a_no_op :
    update_AlterRoleStmt sampleAlterRole none = (.T_AlterRoleStmt ⟨none, [], 1⟩, .ok) ∧
    (update_AlterRoleStmt sampleAlterRole none).1 ≠ sampleAlterRole ∧
    (update_GrantRoleStmt sampleGrantRole [] []).1 ≠ sampleGrantRole ∧
    (update_DropOwnedStmt sampleDropOwned []).1 ≠ sampleDropOwned ∧
    (update_RenameStmt sampleRename none none).2 ≠ .ok := by
  refine ⟨rfl, ?_, ?_, ?_, ?_⟩ <;>
    simp [update_AlterRoleStmt, update_GrantRoleStmt, update_DropOwnedStmt, update_RenameStmt,
      sampleAlterRole, sampleGrantRole, sampleDropOwned, sampleRename]

/-- C10 (amended): for the seven rewriters that guard their overrides
(`update_AlterTableStmt`, `update_CreateRoleStmt`, `update_CreateSchemaStmt`,
`update_DropRoleStmt`, `update_DropStmt`, `update_GrantStmt`, `update_ViewStmt`) and every
node of the matching kind, the call with every override absent returns normally with the
node unchanged, and an absent override leaves the field it controls unchanged whatever the
other overrides are (in `update_GrantStmt` the overrides `object` and `obj_schema` both write
the last object: the object list is unchanged when both are absent). `update_AlterRoleStmt`, `update_GrantRoleStmt` and
`update_DropOwnedStmt` take the replacement value itself: they always return normally with
`role`, `granted_roles` and `grantee_roles`, `roles` overwritten by the argument, absent or
empty included. `update_RenameStmt` with both names present sets `subname` and `newname`. -/
theorem guarded_overrides_keep_fields :
    (∀ stmt, update_AlterTableStmt (.T_AlterTableStmt stmt) none none
      = (.T_AlterTableStmt stmt, .ok)) ∧
    (∀ stmt newowner, ∃ cmds, (update_AlterTableStmt (.T_AlterTableStmt stmt) none newowner).1
      = .T_AlterTableStmt { stmt with cmds := cmds }) ∧
    (∀ stmt tbl_schema, ∃ rel, (update_AlterTableStmt (.T_AlterTableStmt stmt) tbl_schema none).1
      = .T_AlterTableStmt { stmt with relation := rel }) ∧
    (∀ stmt, update_CreateRoleStmt (.T_CreateRoleStmt stmt) none none none
      = (.T_CreateRoleStmt stmt, .ok)) ∧
    (∀ stmt member addto, ∃ opts,
      (update_CreateRoleStmt (.T_CreateRoleStmt stmt) none member addto).1
        = .T_CreateRoleStmt { stmt with options := opts }) ∧
    (∀ stmt role, ∃ r, (update_CreateRoleStmt (.T_CreateRoleStmt stmt) role none none).1
      = .T_CreateRoleStmt { stmt with role := r }) ∧
    (∀ stmt role addto, ∃ r opts,
      (update_CreateRoleStmt (.T_CreateRoleStmt stmt) role none addto).1
        = .T_CreateRoleStmt ⟨stmt.stmt_type, r, opts⟩ ∧
      opts.filter (fun d => d.defname == "rolemembers")
        = stmt.options.filter (fun d => d.defname == "rolemembers")) ∧
    (∀ stmt role member, ∃ r opts,
      (update_CreateRoleStmt (.T_CreateRoleStmt stmt) role member none).1
        = .T_CreateRoleStmt ⟨stmt.stmt_type, r, opts⟩ ∧
      opts.filter (fun d => d.defname == "addroleto")
        = stmt.options.filter (fun d => d.defname == "addroleto")) ∧
    (∀ stmt, update_CreateSchemaStmt (.T_CreateSchemaStmt stmt) none none
      = (.T_CreateSchemaStmt stmt, .ok)) ∧
    (∀ stmt authrole, ∃ a, (update_CreateSchemaStmt (.T_CreateSchemaStmt stmt) none authrole).1
      = .T_CreateSchemaStmt { stmt with authrole := a }) ∧
    (∀ stmt schemaname, ∃ nm,
      (update_CreateSchemaStmt (.T_CreateSchemaStmt stmt) schemaname none).1
        = .T_CreateSchemaStmt { stmt with schemaname := nm }) ∧
    (∀ stmt, update_DropRoleStmt (.T_DropRoleStmt stmt) none = (.T_DropRoleStmt stmt, .ok)) ∧
    (∀ stmt, update_DropStmt (.T_DropStmt stmt) none = (.T_DropStmt stmt, .ok)) ∧
    (∀ stmt, update_GrantStmt (.T_GrantStmt stmt) none none none = (.T_GrantStmt stmt, .ok)) ∧
    (∀ stmt object obj_schema, ∃ objs,
      (update_GrantStmt (.T_GrantStmt stmt) object obj_schema none).1
        = .T_GrantStmt { stmt with objects := objs }) ∧
    (∀ stmt grantee, ∃ gs, (update_GrantStmt (.T_GrantStmt stmt) none none grantee).1
      = .T_GrantStmt { stmt with grantees := gs }) ∧
    (∀ stmt, update_ViewStmt (.T_ViewStmt stmt) none = (.T_ViewStmt stmt, .ok)) ∧
    (∀ stmt role, update_AlterRoleStmt (.T_AlterRoleStmt stmt) role
      = (.T_AlterRoleStmt { stmt with role := role }, .ok)) ∧
    (∀ stmt privs roles, update_GrantRoleStmt (.T_GrantRoleStmt stmt) privs roles
      = (.T_GrantRoleStmt { stmt with granted_roles := privs, grantee_roles := roles }, .ok)) ∧
    (∀ stmt role_list, update_DropOwnedStmt (.T_DropOwnedStmt stmt) role_list
      = (.T_DropOwnedStmt { stmt with
          roles := role_list.map (fun name => ⟨.ROLESPEC_CSTRING, some name, -1⟩) }, .ok)) ∧
    (∀ stmt old_name new_name,
      update_RenameStmt (.T_RenameStmt stmt) (some old_name) (some new_name)
        = (.T_RenameStmt { stmt with subname := some old_name, newname := some new_name },
            .ok)) := by
  refine ⟨fun _ => rfl, ?_, ?_, ?_, ?_, ?_, ?_, ?_, ?_, ?_, ?_, ?_, ?_, ?_, ?_, ?_,
    fun _ => rfl, fun _ _ => rfl, fun _ _ _ => rfl, fun _ _ => rfl, fun _ _ _ => rfl⟩
  · intro stmt newowner
    cases newowner with
    | none => exact ⟨stmt.cmds, rfl⟩
    | some o => exact ⟨(changeOwnerCmds o stmt.cmds).1, rfl⟩
  · intro stmt tbl_schema
    cases tbl_schema with
    | none => exact ⟨stmt.relation, rfl⟩
    | some sch =>
      obtain ⟨relation, cmds, missing_ok⟩ := stmt
      cases relation with
      | none => exact ⟨none, rfl⟩
      | some rv => exact ⟨some (rv.setSchemaname sch), rfl⟩
  · intro stmt
    simp [update_CreateRoleStmt]
  · intro stmt member addto
    by_cases h : (member.isNone && addto.isNone) = true
    · exact ⟨stmt.options, by simp [update_CreateRoleStmt, h]⟩
    · exact ⟨(patchRoleOptions member addto stmt.options).1, by
        simp only [update_CreateRoleStmt, h]
        rfl⟩
  · intro stmt role
    cases role with
    | none => exact ⟨stmt.role, by simp [update_CreateRoleStmt]⟩
    | some r => exact ⟨some r, by simp [update_CreateRoleStmt]⟩
  · intro stmt role addto
    have key := patchRoleOptions_keeps_other_names none addto "rolemembers" (Or.inl rfl)
      (Or.inr (by decide)) stmt.options
    obtain ⟨stmt_type, role0, options⟩ := stmt
    cases role with
    | none =>
      cases addto with
      | none => exact ⟨role0, options, rfl, rfl⟩
      | some a => exact ⟨role0, (patchRoleOptions none (some a) options).1, rfl, key⟩
    | some r =>
      cases addto with
      | none => exact ⟨some r, options, rfl, rfl⟩
      | some a => exact ⟨some r, (patchRoleOptions none (some a) options).1, rfl, key⟩
  · intro stmt role member
    have key := patchRoleOptions_keeps_other_names member none "addroleto"
      (Or.inr (by decide)) (Or.inl rfl) stmt.options
    obtain ⟨stmt_type, role0, options⟩ := stmt
    cases role with
    | none =>
      cases member with
      | none => exact ⟨role0, options, rfl, rfl⟩
      | some m => exact ⟨role0, (patchRoleOptions (some m) none options).1, rfl, key⟩
    | some r =>
      cases member with
      | none => exact ⟨some r, options, rfl, rfl⟩
      | some m => exact ⟨some r, (patchRoleOptions (some m) none options).1, rfl, key⟩
  · intro stmt
    rfl
  · intro stmt authrole
    cases authrole with
    | none => exact ⟨stmt.authrole, rfl⟩
    | some a =>
      obtain ⟨schemaname, authrole0, if_not_exists⟩ := stmt
      cases authrole0 with
      | none => exact ⟨none, rfl⟩
      | some r => exact ⟨some (r.setRolename a), rfl⟩
  · intro stmt schemaname
    cases schemaname with
    | none => exact ⟨stmt.schemaname, rfl⟩
    | some nm => exact ⟨some nm, rfl⟩
  · intro stmt
    simp [update_DropRoleStmt]
  · intro stmt
    simp [update_DropStmt]
  · intro stmt
    rfl
  · intro stmt object obj_schema
    obtain ⟨objs, hobjs⟩ := patchGrantObjects_frame stmt object obj_schema
    refine ⟨objs, ?_⟩
    simp only [update_GrantStmt]
    cases hout : (patchGrantObjects stmt object obj_schema).2 <;>
      simp [hobjs, patchGrantee]
  · intro stmt grantee
    obtain ⟨is_grant, objtype, objects, privileges, grantees, grant_option⟩ := stmt
    cases grantee with
    | none => exact ⟨grantees, rfl⟩
    | some g =>
      cases grantees with
      | nil => exact ⟨[], rfl⟩
      | cons a l => exact ⟨mapLast (fun r => r.setRolename g) (a :: l), rfl⟩

theorem mapLast_eq_dropLast_append {α : Type} (f : α → α) (l : List α) (h : l ≠ []) :
    mapLast f l = l.dropLast ++ [f (l.getLast h)] := by
  induction l with
  | nil => exact absurd rfl h
  | cons a t ih =>
    cases t with
    | nil => rfl
    | cons b u =>
      have hne : b :: u ≠ [] := by simp
      simp only [mapLast, List.dropLast_cons₂, List.getLast_cons hne, List.cons_append]
      rw [ih hne]

theorem mapLast_length {α : Type} (f : α → α) (l : List α) :
    (mapLast f l).length = l.length := by
  induction l with
  | nil => rfl
  | cons a t ih =>
    cases t with
    | nil => rfl
    | cons b u => simp only [mapLast, List.length_cons] at ih ⊢; omega

theorem renameLastRolePtr_live (role : String) (l : List RoleSpec) :
    renameLastRolePtr role (l.map RolePtr.live)
      = ((mapLast (fun r => r.setRolename role) l).map RolePtr.live, Outcome.ok) := by
  induction l with
  | nil => rfl
  | cons a t ih =>
    cases t with
    | nil => rfl
    | cons b u =>
      simp only [List.map_cons, renameLastRolePtr, mapLast] at ih ⊢
      rw [ih]

/-- C11: on a drop-role template whose role list is the sentinel `is_role` followed by a
non-empty list `rest` of role specifications, `update_DropRoleStmt` with a name `r` returns
normally and leaves the role list equal to `rest` with the name of its last element replaced
by `r`, every earlier element as it was; for `is_role, alice` and `bob` the list is `bob`. -/
theorem drop_role_strips_sentinel_and_renames_last :
    (∀ (stmt : DropRoleStmt) (sentinel : RoleSpec) (rest : List RoleSpec) (r : String)
      (hne : rest ≠ []), sentinel.rolename = some "is_role" →
      stmt.roles = RolePtr.live sentinel :: rest.map RolePtr.live →
      update_DropRoleStmt (.T_DropRoleStmt stmt) (some r)
        = (.T_DropRoleStmt { stmt with roles :=
            (rest.dropLast ++ [(rest.getLast hne).setRolename r]).map RolePtr.live }, .ok)) ∧
    update_DropRoleStmt sampleDropRole (some "bob")
      = (.T_DropRoleStmt ⟨[.live ⟨.ROLESPEC_CSTRING, some "bob", 19⟩], false⟩, .ok) := by
  refine ⟨?_, by decide⟩
  intro stmt sentinel rest r hne hs hroles
  obtain ⟨roles, missing_ok⟩ := stmt
  simp only at hroles
  subst hroles
  cases rest with
  | nil => exact absurd rfl hne
  | cons a t =>
    have hren := renameLastRolePtr_live r (a :: t)
    rw [mapLast_eq_dropLast_append _ _ hne] at hren
    simp only [List.map_cons] at hren
    simp only [update_DropRoleStmt, hs, List.map_cons, beq_self_eq_true, if_true, hren]

theorem drop_role_strips_sentinel_and_renames_last_witness :
    update_DropRoleStmt
        (.T_DropRoleStmt ⟨[.live ⟨.ROLESPEC_CSTRING, some "is_role", 10⟩,
          .live ⟨.ROLESPEC_CSTRING, some "alice", 19⟩,
          .live ⟨.ROLESPEC_CSTRING, some "carol", 26⟩], true⟩) (some "bob")
      = (.T_DropRoleStmt ⟨[.live ⟨.ROLESPEC_CSTRING, some "alice", 19⟩,
          .live ⟨.ROLESPEC_CSTRING, some "bob", 26⟩], true⟩, .ok) :=
  drop_role_strips_sentinel_and_renames_last.1
    ⟨[.live ⟨.ROLESPEC_CSTRING, some "is_role", 10⟩, .live ⟨.ROLESPEC_CSTRING, some "alice", 19⟩,
      .live ⟨.ROLESPEC_CSTRING, some "carol", 26⟩], true⟩
    ⟨.ROLESPEC_CSTRING, some "is_role", 10⟩
    [⟨.ROLESPEC_CSTRING, some "alice", 19⟩, ⟨.ROLESPEC_CSTRING, some "carol", 26⟩] "bob"
    (by simp) rfl rfl

/-- C12: on a drop-role template whose role list is the sentinel `is_role` alone,
`update_DropRoleStmt` with any name returns normally with the role list empty and every
other field as it was; the node it leaves is the same for every name, so the name is
written nowhere. -/
theorem drop_role_sentinel_alone_empties_list (stmt : DropRoleStmt) (sentinel : RoleSpec)
    (r : String) (hs : sentinel.rolename = some "is_role")
    (hroles : stmt.roles = [RolePtr.live sentinel]) :
    update_DropRoleStmt (.T_DropRoleStmt stmt) (some r)
      = (.T_DropRoleStmt { stmt with roles := [] }, .ok) := by
  obtain ⟨roles, missing_ok⟩ := stmt
  simp only at hroles
  subst hroles
  simp [update_DropRoleStmt, hs]

theorem drop_role_sentinel_alone_empties_list_witness :
    update_DropRoleStmt sampleDropRoleSentinelOnly (some "bob")
      = (.T_DropRoleStmt ⟨[], false⟩, .ok) :=
  drop_role_sentinel_alone_empties_list
    ⟨[.live ⟨.ROLESPEC_CSTRING, some "is_role", 10⟩], false⟩
    ⟨.ROLESPEC_CSTRING, some "is_role", 10⟩ "bob" rfl rfl

theorem patchGrantee_some (stmt : GrantStmt) (g : String) (h : stmt.grantees ≠ []) :
    patchGrantee stmt (some g)
      = { stmt with grantees :=
          stmt.grantees.dropLast ++ [(stmt.grantees.getLast h).setRolename g] } := by
  obtain ⟨is_grant, objtype, objects, privileges, grantees, grant_option⟩ := stmt
  cases grantees with
  | nil => exact absurd rfl h
  | cons a t =>
    simp only [patchGrantee]
    rw [mapLast_eq_dropLast_append _ _ h]

/-- C13: on a drop-object template with a non-empty object list, `update_DropStmt` with an
object name returns normally, keeps the length of the list, leaves every element but the
last as it was and makes the last element the string node of the name. On a grant template
with a non-empty grantee list, every `update_GrantStmt` call with a grantee name that returns
normally leaves the grantee list as it was except that the last grantee has the new role
name; its kind and location and every other grantee are unchanged. -/
theorem last_element_is_patched :
    (∀ (stmt : DropStmt) (object : String), stmt.objects ≠ [] →
      update_DropStmt (.T_DropStmt stmt) (some object)
        = (.T_DropStmt { stmt with
            objects := stmt.objects.dropLast ++ [ObjNode.T_String object] }, .ok) ∧
      (stmt.objects.dropLast ++ [ObjNode.T_String object]).length = stmt.objects.length ∧
      (stmt.objects.dropLast ++ [ObjNode.T_String object]).dropLast = stmt.objects.dropLast ∧
      (stmt.objects.dropLast ++ [ObjNode.T_String object]).getLast?
        = some (ObjNode.T_String object)) ∧
    (∀ (stmt : GrantStmt) (object obj_schema : Option String) (grantee : String)
      (h : stmt.grantees ≠ []),
      (update_GrantStmt (.T_GrantStmt stmt) object obj_schema (some grantee)).2 = .ok →
      ∃ objs, (update_GrantStmt (.T_GrantStmt stmt) object obj_schema (some grantee)).1
        = .T_GrantStmt { stmt with
            objects := objs,
            grantees := stmt.grantees.dropLast ++
              [{ stmt.grantees.getLast h with rolename := some grantee }] }) := by
  constructor
  · intro stmt object h
    refine ⟨?_, ?_, ?_, ?_⟩
    · obtain ⟨objects, removeType, behavior, missing_ok⟩ := stmt
      cases objects with
      | nil => exact absurd rfl h
      | cons a t =>
        simp only [update_DropStmt]
        rw [mapLast_eq_dropLast_append _ _ h]
    · have := List.length_dropLast stmt.objects
      have hpos : 0 < stmt.objects.length := List.length_pos.mpr h
      simp only [List.length_append, List.length_singleton, this]
      omega
    · simp
    · simp
  · intro stmt object obj_schema grantee h hok
    obtain ⟨objs, hobjs⟩ := patchGrantObjects_frame stmt object obj_schema
    refine ⟨objs, ?_⟩
    simp only [update_GrantStmt] at hok ⊢
    cases hout : (patchGrantObjects stmt object obj_schema).2 with
    | ok =>
      have hg : (patchGrantObjects stmt object obj_schema).1.grantees ≠ [] := by
        rw [hobjs]
        exact h
      simp only [patchGrantee_some _ _ hg]
      simp only [hobjs]
      rfl
    | error c m => simp [hout] at hok
    | fault w => simp [hout] at hok

theorem last_element_is_patched_witness :
    update_DropStmt (.T_DropStmt sampleDrop) (some "c")
      = (.T_DropStmt ⟨[.T_String "a", .T_String "c"], 0, 0, false⟩, .ok) ∧
    (update_GrantStmt (.T_GrantStmt sampleGrant) none (some "dbo") (some "bob")).2 = .ok ∧
    (∃ objs, (update_GrantStmt (.T_GrantStmt sampleGrant) none (some "dbo") (some "bob")).1
      = .T_GrantStmt { sampleGrant with
          objects := objs,
          grantees := [⟨.ROLESPEC_CSTRING, some "alice", 30⟩,
            ⟨.ROLESPEC_CSTRING, some "bob", 37⟩] }) :=
  ⟨(last_element_is_patched.1 sampleDrop "c" (by decide)).1, rfl,
    last_element_is_patched.2 sampleGrant none (some "dbo") "bob" (by decide) rfl⟩

/-! ## Theorems: argument marshaling helper -/

theorem setAt_same {α : Type} (a : Nat → α) (i : Nat) (v : α) : setAt a i v i = v := by
  simp [setAt]

theorem declareParam_nargs (M : Int) (p : ParamDecl) (i : Nat)
    (args : Option InlineCodeBlockArgs) (fcinfo : FunctionCallInfoBaseData) :
    (declareParam M p i args fcinfo).fcinfo.nargs = toInt16 (fcinfo.nargs + 1) := by
  unfold declareParam pltsql_declare_variable
  simp only
  split <;> rfl

theorem toInt16_of_short (x : Int) (hlo : -32768 ≤ x) (hhi : x ≤ 32767) : toInt16 x = x := by
  unfold toInt16
  omega

theorem declareParam_out (M : Int) (p : ParamDecl) (i : Nat)
    (args : Option InlineCodeBlockArgs) (fcinfo : FunctionCallInfoBaseData) :
    (declareParam M p i args fcinfo).out
      = if toInt16 (fcinfo.nargs + 1) > M then
          Outcome.error "ERRCODE_TOO_MANY_ARGUMENTS"
            "cannot pass more than %d arguments to a procedure"
        else Outcome.ok := by
  unfold declareParam pltsql_declare_variable
  simp only
  split <;> rfl

theorem declareParam_slots (M : Int) (p : ParamDecl) (i : Nat)
    (args : Option InlineCodeBlockArgs) (fcinfo : FunctionCallInfoBaseData) :
    (declareParam M p i args fcinfo).fcinfo.args
      = setAt fcinfo.args (i + 2) ⟨if p.isnull then 0 else p.value, p.isnull⟩ := by
  unfold declareParam pltsql_declare_variable
  simp only
  split <;> rfl

theorem declareParams_within_limit (M : Int) (ps : List ParamDecl) (i : Nat)
    (args : Option InlineCodeBlockArgs) (fcinfo : FunctionCallInfoBaseData)
    (hM : M ≤ 32767) (hlo : -32768 ≤ fcinfo.nargs)
    (h : fcinfo.nargs + ps.length ≤ M) :
    (declareParams M i args fcinfo ps).out = Outcome.ok ∧
    (declareParams M i args fcinfo ps).fcinfo.nargs = fcinfo.nargs + ps.length := by
  induction ps generalizing i args fcinfo with
  | nil => simp [declareParams]
  | cons p ps ih =>
    simp only [List.length_cons] at h
    push_cast at h
    have h16 : toInt16 (fcinfo.nargs + 1) = fcinfo.nargs + 1 :=
      toInt16_of_short _ (by omega) (by omega)
    have hout : (declareParam M p i args fcinfo).out = Outcome.ok := by
      rw [declareParam_out, h16, if_neg (by omega)]
    have hn : (declareParam M p i args fcinfo).fcinfo.nargs = fcinfo.nargs + 1 := by
      rw [declareParam_nargs, h16]
    have hrec := ih (i + 1) (declareParam M p i args fcinfo).args
      (declareParam M p i args fcinfo).fcinfo (by rw [hn]; omega) (by rw [hn]; omega)
    unfold declareParams
    change (match (declareParam M p i args fcinfo).out with
      | .ok => declareParams M (i + 1) (declareParam M p i args fcinfo).args
          (declareParam M p i args fcinfo).fcinfo ps
      | _ => declareParam M p i args fcinfo).out = Outcome.ok ∧
      (match (declareParam M p i args fcinfo).out with
      | .ok => declareParams M (i + 1) (declareParam M p i args fcinfo).args
          (declareParam M p i args fcinfo).fcinfo ps
      | _ => declareParam M p i args fcinfo).fcinfo.nargs = fcinfo.nargs + ↑(ps.length + 1)
    rw [hout]
    simp only
    refine ⟨hrec.1, ?_⟩
    rw [hrec.2, hn]
    push_cast
    ring

theorem buildCallFrame_count (M : Int) (codeblock argsDatum : Datum)
    (args : Option InlineCodeBlockArgs) (fcinfo : FunctionCallInfoBaseData)
    (params : List ParamDecl) (hM : M ≤ 32766) (h : 1 + (params.length : Int) ≤ M) :
    (buildCallFrame M codeblock argsDatum args fcinfo params).out = Outcome.ok ∧
    (buildCallFrame M codeblock argsDatum args fcinfo params).fcinfo.nargs
      = params.length + 2 := by
  have hd := declareParams_within_limit M params 0 args
    ⟨1, fcinfo.nslots, setAt fcinfo.args 0 ⟨codeblock, false⟩⟩ (by omega) (by simp) h
  unfold buildCallFrame
  simp only
  rw [hd.1]
  simp only
  refine ⟨trivial, ?_⟩
  rw [hd.2]
  simp only
  rw [toInt16_of_short _ (by omega) (by omega)]
  ring

/-- C15 (the code at the failing input): with `FUNC_MAX_ARGS = 100` and 99 parameters, the
documented construction protocol runs without any `pltsql_declare_variable` call reporting an
error, and the count of the finished frame is 101. -/
theorem protocol_count_exceeds_ceiling :
    (buildCallFrame 100 1 2 (some zeroArgs) zeroFrame (List.replicate 99 sampleParam)).out
      = Outcome.ok ∧
    (buildCallFrame 100 1 2 (some zeroArgs) zeroFrame
      (List.replicate 99 sampleParam)).fcinfo.nargs = 101 ∧
    ¬ ((buildCallFrame 100 1 2 (some zeroArgs) zeroFrame
      (List.replicate 99 sampleParam)).fcinfo.nargs ≤ 100) := by
  have h := buildCallFrame_count 100 1 2 (some zeroArgs) zeroFrame
    (List.replicate 99 sampleParam) (by decide) (by simp)
  have hn : (buildCallFrame 100 1 2 (some zeroArgs) zeroFrame
      (List.replicate 99 sampleParam)).fcinfo.nargs = 101 := by
    rw [h.2]
    simp
  refine ⟨h.1, hn, ?_⟩
  rw [hn]
  decide

/-! ## Theorems: locktag codec -/

theorem lockKey64_exact (k : Int) (hlo : -32768 ≤ k) (hhi : k ≤ 32767) :
    (lockKey64 k : Int) = k + 11259375 := by
  unfold lockKey64 PLTSQL_LOCKTAG_OFFSET
  norm_num
  omega

/-- C16: for every 16-bit signed id `k`, the 64-bit sum formed by `SET_LOCKTAG_INT16` is the
exact integer `k + 0xABCDEF`, the tag is `(MyDatabaseId, high half, low half, 3)` of that sum,
the high half is 0 and the low half is `k + 11259375`; two different ids give different
tags. -/
theorem locktag_int16_is_exact_and_injective (MyDatabaseId : Nat) :
    (∀ k : Int, -32768 ≤ k → k ≤ 32767 →
      (lockKey64 k : Int) = k + 0xABCDEF ∧
      SET_LOCKTAG_INT16 MyDatabaseId k
        = ⟨MyDatabaseId, lockKey64 k / 2 ^ 32 % 2 ^ 32, lockKey64 k % 2 ^ 32, 3⟩ ∧
      (SET_LOCKTAG_INT16 MyDatabaseId k).locktag_field2 = 0 ∧
      ((SET_LOCKTAG_INT16 MyDatabaseId k).locktag_field3 : Int) = k + 11259375) ∧
    (∀ k1 k2 : Int, -32768 ≤ k1 → k1 ≤ 32767 → -32768 ≤ k2 → k2 ≤ 32767 →
      SET_LOCKTAG_INT16 MyDatabaseId k1 = SET_LOCKTAG_INT16 MyDatabaseId k2 → k1 = k2) := by
  have field3 : ∀ k : Int, -32768 ≤ k → k ≤ 32767 →
      ((SET_LOCKTAG_INT16 MyDatabaseId k).locktag_field3 : Int) = k + 11259375 := by
    intro k hlo hhi
    have h := lockKey64_exact k hlo hhi
    simp only [SET_LOCKTAG_INT16, SET_LOCKTAG_ADVISORY]
    norm_num
    omega
  constructor
  · intro k hlo hhi
    have h := lockKey64_exact k hlo hhi
    refine ⟨by simpa using h, ?_, ?_, field3 k hlo hhi⟩
    · simp only [SET_LOCKTAG_INT16, SET_LOCKTAG_ADVISORY, Nat.shiftRight_eq_div_pow]
    · simp only [SET_LOCKTAG_INT16, SET_LOCKTAG_ADVISORY, Nat.shiftRight_eq_div_pow]
      norm_num
      omega
  · intro k1 k2 h1 h1' h2 h2' heq
    have e1 := field3 k1 h1 h1'
    have e2 := field3 k2 h2 h2'
    rw [heq] at e1
    omega

theorem locktag_int16_is_exact_and_injective_witness :
    SET_LOCKTAG_INT16 5 (-1) = ⟨5, lockKey64 (-1) / 2 ^ 32 % 2 ^ 32, lockKey64 (-1) % 2 ^ 32, 3⟩ ∧
    (SET_LOCKTAG_INT16 5 (-1)).locktag_field2 = 0 ∧
    ((SET_LOCKTAG_INT16 5 (-1)).locktag_field3 : Int) = -1 + 11259375 :=
  have h := (locktag_int16_is_exact_and_injective 5).1 (-1) (by decide) (by decide)
  ⟨h.2.1, h.2.2.1, h.2.2.2⟩

/-! ## Theorems: procedure signature resolver -/

theorem toInt32_toUInt32 (x : Int) (hlo : -2147483648 ≤ x) (hhi : x ≤ 2147483647) :
    toInt32 (toUInt32 x) = x := by
  unfold toInt32 toUInt32
  norm_num
  split <;> omega

theorem toInt32_small (c : Nat) (h : c < 2147483648) : toInt32 c = c := by
  unfold toInt32
  norm_num
  split <;> omega

/-- C17: `pltsql_read_procedure_info` returns the integer-procedure signature
(`is_proc = true`, type `INT4OID`, typmod the word `(Oid) -1` whose signed reading is -1,
collation -1) when name resolution yields no candidate, and when it yields exactly one
candidate whose catalog row has kind procedure; the result mentions nothing of the catalog
but `INT4OID`. -/
theorem procedure_signature_is_integer (env : CatalogEnv) (inout_str : String) :
    (env.FuncnameGetCandidates (env.rawParser ("EXECUTE " ++ inout_str)) = [] →
      pltsql_read_procedure_info env inout_str
        = (.ok, some ⟨true, env.INT4OID, 4294967295, -1⟩)) ∧
    (∀ oid pr, env.FuncnameGetCandidates (env.rawParser ("EXECUTE " ++ inout_str)) = [oid] →
      env.SearchSysCache1 oid = some pr → pr.prokind = .PROKIND_PROCEDURE →
      pltsql_read_procedure_info env inout_str
        = (.ok, some ⟨true, env.INT4OID, 4294967295, -1⟩)) ∧
    toInt32 4294967295 = -1 := by
  refine ⟨?_, ?_, by decide⟩
  · intro h
    simp only [pltsql_read_procedure_info, h, signatureOf, if_true]
    rfl
  · intro oid pr h hl hk
    simp only [pltsql_read_procedure_info, h, hl, hk, signatureOf]
    rfl

theorem procedure_signature_is_integer_witness :
    pltsql_read_procedure_info sampleCatalog "sp_executesql"
      = (.ok, some ⟨true, 23, 4294967295, -1⟩) ∧
    pltsql_read_procedure_info sampleCatalog "sp_one"
      = (.ok, some ⟨true, 23, 4294967295, -1⟩) :=
  ⟨(procedure_signature_is_integer sampleCatalog "sp_executesql").1 (by decide),
    (procedure_signature_is_integer sampleCatalog "sp_one").2.1 100
      ⟨"sp_one", .PROKIND_PROCEDURE, false, 2278, 0⟩ (by decide) (by decide) rfl⟩

theorem signatureOf_function (env : CatalogEnv) (oid : Oid) (pr : Form_pg_proc) :
    signatureOf env oid false (some pr)
      = if pr.proretset then
          (.error "ERRCODE_FEATURE_NOT_SUPPORTED"
            "The request for procedure \"%s\" failed because \"%s\" isa SET-returning function",
            none)
        else if pr.prorettype = env.RECORDOID ∨ pr.prorettype = env.VOIDOID then
          (.error "ERRCODE_FEATURE_NOT_SUPPORTED"
            "The request for procedure \"%s\" failed because \"%s\" isnot a scalar-valued function",
            none)
        else
          match env.typeidType pr.prorettype with
          | none => (.error "XX000" "cache lookup failed for type %u", none)
          | some typtup =>
            (.ok, some ⟨false, pr.prorettype,
              toUInt32 (env.probin_read_ret_typmod oid pr.pronargs pr.prorettype),
              toInt32 typtup.typcollation⟩) := by
  simp [signatureOf]

/-- C18: given that every resolved routine id has a catalog row whose return type has a
catalog row, `pltsql_read_procedure_info` fails if and only if name resolution yields more
than one candidate (error `ERRCODE_AMBIGUOUS_FUNCTION`) or yields exactly one candidate that
is not a procedure and is set-returning or returns record or void (error
`ERRCODE_FEATURE_NOT_SUPPORTED`). For every other single non-procedure candidate it returns
`is_proc = false`, the declared return type, the typmod read by `probin_read_ret_typmod`
(stored as a 32-bit word, whose signed reading is the value read) and the collation of the
return type (read as `int`, equal to the collation id below `2 ^ 31`). -/
theorem function_signature_or_failure (env : CatalogEnv) (inout_str : String)
    (hvalid : ∀ oid ∈ env.FuncnameGetCandidates (env.rawParser ("EXECUTE " ++ inout_str)),
      ∃ pr, env.SearchSysCache1 oid = some pr ∧ (env.typeidType pr.prorettype).isSome = true) :
    ((pltsql_read_procedure_info env inout_str).1 ≠ .ok ↔
      (2 ≤ (env.FuncnameGetCandidates (env.rawParser ("EXECUTE " ++ inout_str))).length ∨
       ∃ oid pr, env.FuncnameGetCandidates (env.rawParser ("EXECUTE " ++ inout_str)) = [oid] ∧
        env.SearchSysCache1 oid = some pr ∧ pr.prokind ≠ .PROKIND_PROCEDURE ∧
        (pr.proretset = true ∨ pr.prorettype = env.RECORDOID ∨ pr.prorettype = env.VOIDOID))) ∧
    (2 ≤ (env.FuncnameGetCandidates (env.rawParser ("EXECUTE " ++ inout_str))).length →
      pltsql_read_procedure_info env inout_str
        = (.error "ERRCODE_AMBIGUOUS_FUNCTION" "more than one function named \"%s\"", none)) ∧
    (∀ oid pr, env.FuncnameGetCandidates (env.rawParser ("EXECUTE " ++ inout_str)) = [oid] →
      env.SearchSysCache1 oid = some pr → pr.prokind ≠ .PROKIND_PROCEDURE →
      (pr.proretset = true ∨ pr.prorettype = env.RECORDOID ∨ pr.prorettype = env.VOIDOID) →
      ∃ msg, pltsql_read_procedure_info env inout_str
        = (.error "ERRCODE_FEATURE_NOT_SUPPORTED" msg, none)) ∧
    (∀ oid pr typtup,
      env.FuncnameGetCandidates (env.rawParser ("EXECUTE " ++ inout_str)) = [oid] →
      env.SearchSysCache1 oid = some pr → pr.prokind ≠ .PROKIND_PROCEDURE →
      pr.proretset = false → pr.prorettype ≠ env.RECORDOID → pr.prorettype ≠ env.VOIDOID →
      env.typeidType pr.prorettype = some typtup →
      pltsql_read_procedure_info env inout_str
        = (.ok, some ⟨false, pr.prorettype,
            toUInt32 (env.probin_read_ret_typmod oid pr.pronargs pr.prorettype),
            toInt32 typtup.typcollation⟩) ∧
      (-2147483648 ≤ env.probin_read_ret_typmod oid pr.pronargs pr.prorettype →
        env.probin_read_ret_typmod oid pr.pronargs pr.prorettype ≤ 2147483647 →
        toInt32 (toUInt32 (env.probin_read_ret_typmod oid pr.pronargs pr.prorettype))
          = env.probin_read_ret_typmod oid pr.pronargs pr.prorettype) ∧
      (typtup.typcollation < 2147483648 →
        toInt32 typtup.typcollation = typtup.typcollation)) := by
  have hamb : 2 ≤ (env.FuncnameGetCandidates (env.rawParser ("EXECUTE " ++ inout_str))).length →
      pltsql_read_procedure_info env inout_str
        = (.error "ERRCODE_AMBIGUOUS_FUNCTION" "more than one function named \"%s\"", none) := by
    intro h2
    cases hc : env.FuncnameGetCandidates (env.rawParser ("EXECUTE " ++ inout_str)) with
    | nil => simp [hc] at h2
    | cons a t =>
      cases t with
      | nil => simp [hc] at h2
      | cons b u => simp [pltsql_read_procedure_info, hc]
  have hbad : ∀ oid pr,
      env.FuncnameGetCandidates (env.rawParser ("EXECUTE " ++ inout_str)) = [oid] →
      env.SearchSysCache1 oid = some pr → pr.prokind ≠ .PROKIND_PROCEDURE →
      (pr.proretset = true ∨ pr.prorettype = env.RECORDOID ∨ pr.prorettype = env.VOIDOID) →
      ∃ msg, pltsql_read_procedure_info env inout_str
        = (.error "ERRCODE_FEATURE_NOT_SUPPORTED" msg, none) := by
    intro oid pr hc hl hk hshape
    simp only [pltsql_read_procedure_info, hc, hl, ne_eq, not_true_eq_false, if_false, hk,
      decide_False, signatureOf_function]
    by_cases hset : pr.proretset = true
    · exact ⟨_, by rw [if_pos hset]⟩
    · have hrv : pr.prorettype = env.RECORDOID ∨ pr.prorettype = env.VOIDOID := by
        rcases hshape with h | h
        · exact absurd h hset
        · exact h
      exact ⟨_, by rw [if_neg hset, if_pos hrv]⟩
  have hgood : ∀ oid pr typtup,
      env.FuncnameGetCandidates (env.rawParser ("EXECUTE " ++ inout_str)) = [oid] →
      env.SearchSysCache1 oid = some pr → pr.prokind ≠ .PROKIND_PROCEDURE →
      pr.proretset = false → pr.prorettype ≠ env.RECORDOID → pr.prorettype ≠ env.VOIDOID →
      env.typeidType pr.prorettype = some typtup →
      pltsql_read_procedure_info env inout_str
        = (.ok, some ⟨false, pr.prorettype,
            toUInt32 (env.probin_read_ret_typmod oid pr.pronargs pr.prorettype),
            toInt32 typtup.typcollation⟩) := by
    intro oid pr typtup hc hl hk hset hrec hvoid hty
    simp only [pltsql_read_procedure_info, hc, hl, ne_eq, not_true_eq_false, if_false, hk,
      decide_False, signatureOf_function, hset, hty]
    rw [if_neg (by simp), if_neg (by simp [hrec, hvoid])]
  refine ⟨?_, hamb, hbad, ?_⟩
  · constructor
    · intro hfail
      cases hc : env.FuncnameGetCandidates (env.rawParser ("EXECUTE " ++ inout_str)) with
      | nil =>
        exfalso
        apply hfail
        simp [pltsql_read_procedure_info, hc, signatureOf]
      | cons a t =>
        cases t with
        | cons b u => exact Or.inl (by simp)
        | nil =>
          right
          obtain ⟨pr, hl, hty⟩ := hvalid a (by simp [hc])
          refine ⟨a, pr, rfl, hl, ?_⟩
          by_cases hk : pr.prokind = .PROKIND_PROCEDURE
          · exfalso
            apply hfail
            simp [pltsql_read_procedure_info, hc, hl, hk, signatureOf]
          · refine ⟨hk, ?_⟩
            by_contra hshape
            push_neg at hshape
            obtain ⟨typtup, htt⟩ := Option.isSome_iff_exists.mp hty
            apply hfail
            rw [hgood a pr typtup hc hl hk (by simpa using hshape.1) hshape.2.1 hshape.2.2 htt]
    · intro h
      rcases h with h2 | ⟨oid, pr, hc, hl, hk, hshape⟩
      · rw [hamb h2]
        simp
      · obtain ⟨msg, hmsg⟩ := hbad oid pr hc hl hk hshape
        rw [hmsg]
        simp
  · intro oid pr typtup hc hl hk hset hrec hvoid hty
    exact ⟨hgood oid pr typtup hc hl hk hset hrec hvoid hty,
      fun hlo hhi => toInt32_toUInt32 _ hlo hhi, fun hsmall => toInt32_small _ hsmall⟩

theorem function_signature_or_failure_witness :
    pltsql_read_procedure_info sampleCatalog "f_int" = (.ok, some ⟨false, 1043, 24, 100⟩) ∧
    (pltsql_read_procedure_info sampleCatalog "f_int").1 = .ok :=
  have hvalid : ∀ oid ∈ sampleCatalog.FuncnameGetCandidates
      (sampleCatalog.rawParser ("EXECUTE " ++ "f_int")),
      ∃ pr, sampleCatalog.SearchSysCache1 oid = some pr ∧
        (sampleCatalog.typeidType pr.prorettype).isSome = true := by
    intro oid hoid
    have h101 : oid = 101 := by
      have hc : sampleCatalog.FuncnameGetCandidates
          (sampleCatalog.rawParser ("EXECUTE " ++ "f_int")) = [101] := by decide
      rw [hc] at hoid
      simpa using hoid
    subst h101
    exact ⟨⟨"f_int", .PROKIND_FUNCTION, false, 1043, 1⟩, by decide, by decide⟩
  have h := function_signature_or_failure sampleCatalog "f_int" hvalid
  ⟨(h.2.2.2 101 ⟨"f_int", .PROKIND_FUNCTION, false, 1043, 1⟩ ⟨"varchar", 100⟩ (by decide)
      (by decide) (by decide) rfl (by decide) (by decide) (by decide)).1,
    by decide⟩

/-! ## Theorems: default typmod of sys types -/

/-- C20: for a type that resolves to the schema `sys`, with a typmod `t` other than -1 and
`VARHDRSZ` not negative, `pltsql_check_or_set_default_typmod` leaves through an error if and
only if `t` is the MAX marker -8000 and the type name is none of `varchar`, `nvarchar`,
`varbinary`, or `t > 8000 + VARHDRSZ` and the name is `varchar` or `bpchar`, or
`t > 4000 + VARHDRSZ` and the name is `nvarchar` or `nchar`; the error is
`ERRCODE_INVALID_PARAMETER_VALUE`. A typmod of exactly `8000 + VARHDRSZ` for `varchar` or
`bpchar` and of exactly `4000 + VARHDRSZ` for `nvarchar` or `nchar` is accepted and left
unchanged. -/
theorem explicit_typmod_error_iff (env : TypeEnv) (typeName : TypeName) (t : Int)
    (is_cast : Bool) (hV : 0 ≤ env.VARHDRSZ) (hnames : typeName.names ≠ [])
    (hpct : typeName.pct_type = false) (hsys : is_sys_schema env typeName.names = true)
    (ht : t ≠ -1) :
    ((pltsql_check_or_set_default_typmod env typeName t is_cast).2 ≠ .ok ↔
      ((t = -8000 ∧ (env.DeconstructQualifiedName typeName.names).2 ≠ "varchar" ∧
          (env.DeconstructQualifiedName typeName.names).2 ≠ "nvarchar" ∧
          (env.DeconstructQualifiedName typeName.names).2 ≠ "varbinary") ∨
       (t > 8000 + env.VARHDRSZ ∧
          ((env.DeconstructQualifiedName typeName.names).2 = "varchar" ∨
           (env.DeconstructQualifiedName typeName.names).2 = "bpchar")) ∨
       (t > 4000 + env.VARHDRSZ ∧
          ((env.DeconstructQualifiedName typeName.names).2 = "nvarchar" ∨
           (env.DeconstructQualifiedName typeName.names).2 = "nchar")))) ∧
    ((pltsql_check_or_set_default_typmod env typeName t is_cast).2 ≠ .ok →
      ∃ msg, pltsql_check_or_set_default_typmod env typeName t is_cast
        = (t, .error "ERRCODE_INVALID_PARAMETER_VALUE" msg)) ∧
    (t = 8000 + env.VARHDRSZ →
      ((env.DeconstructQualifiedName typeName.names).2 = "varchar" ∨
        (env.DeconstructQualifiedName typeName.names).2 = "bpchar") →
      pltsql_check_or_set_default_typmod env typeName t is_cast = (t, .ok)) ∧
    (t = 4000 + env.VARHDRSZ →
      ((env.DeconstructQualifiedName typeName.names).2 = "nvarchar" ∨
        (env.DeconstructQualifiedName typeName.names).2 = "nchar") →
      pltsql_check_or_set_default_typmod env typeName t is_cast = (t, .ok)) := by
  have hfun : pltsql_check_or_set_default_typmod env typeName t is_cast
      = sysTypmod env (env.DeconstructQualifiedName typeName.names).2 t is_cast := by
    simp [pltsql_check_or_set_default_typmod, hnames, hpct, hsys]
  rw [hfun]
  generalize (env.DeconstructQualifiedName typeName.names).2 = typname
  have hvb : ("varchar" : String) ≠ "bpchar" := by decide
  have hvn : ("varchar" : String) ≠ "nvarchar" := by decide
  have hvc : ("varchar" : String) ≠ "nchar" := by decide
  have hbn : ("bpchar" : String) ≠ "nvarchar" := by decide
  have hbc : ("bpchar" : String) ≠ "nchar" := by decide
  refine ⟨?_, ?_, ?_, ?_⟩
  · unfold sysTypmod TSQLMaxTypmod
    rw [if_neg ht]
    by_cases hmax : t = -8000
    · subst hmax
      rw [if_pos rfl]
      by_cases hname : typname = "varchar" ∨ typname = "nvarchar" ∨ typname = "varbinary"
      · rw [if_pos hname]
        constructor
        · intro h
          exact absurd rfl h
        · rintro (⟨-, h1, h2, h3⟩ | ⟨h, -⟩ | ⟨h, -⟩)
          · rcases hname with h | h | h
            · exact absurd h h1
            · exact absurd h h2
            · exact absurd h h3
          · omega
          · omega
      · rw [if_neg hname]
        push_neg at hname
        constructor
        · intro _
          exact Or.inl ⟨rfl, hname.1, hname.2.1, hname.2.2⟩
        · intro _
          simp
    · rw [if_neg hmax]
      by_cases hA : t > 8000 + env.VARHDRSZ ∧ (typname = "varchar" ∨ typname = "bpchar")
      · rw [if_pos hA]
        constructor
        · intro _
          exact Or.inr (Or.inl hA)
        · intro _
          simp
      · rw [if_neg hA]
        by_cases hB : t > 4000 + env.VARHDRSZ ∧ (typname = "nvarchar" ∨ typname = "nchar")
        · rw [if_pos hB]
          constructor
          · intro _
            exact Or.inr (Or.inr hB)
          · intro _
            simp
        · rw [if_neg hB]
          constructor
          · intro h
            exact absurd rfl h
          · rintro (⟨h, -⟩ | h | h)
            · exact absurd h hmax
            · exact absurd h hA
            · exact absurd h hB
  · intro hfail
    unfold sysTypmod at hfail ⊢
    rw [if_neg ht] at hfail ⊢
    split at hfail
    · rename_i hmax
      rw [if_pos hmax]
      split at hfail
      · exact absurd rfl hfail
      · rename_i hname
        rw [if_neg hname]
        exact ⟨_, rfl⟩
    · rename_i hmax
      rw [if_neg hmax]
      split at hfail
      · rename_i hA
        rw [if_pos hA]
        exact ⟨_, rfl⟩
      · rename_i hA
        rw [if_neg hA]
        split at hfail
        · rename_i hB
          rw [if_pos hB]
          exact ⟨_, rfl⟩
        · exact absurd rfl hfail
  · intro h8 hname
    unfold sysTypmod TSQLMaxTypmod
    rw [if_neg ht, if_neg (by omega), if_neg (by omega), if_neg]
    rintro ⟨-, h | h⟩
    · rcases hname with h' | h'
      · exact hvn (h'.symm.trans h)
      · exact hbn (h'.symm.trans h)
    · rcases hname with h' | h'
      · exact hvc (h'.symm.trans h)
      · exact hbc (h'.symm.trans h)
  · intro h4 hname
    unfold sysTypmod TSQLMaxTypmod
    rw [if_neg ht, if_neg (by omega), if_neg (by omega), if_neg (by omega)]

theorem explicit_typmod_error_iff_witness :
    pltsql_check_or_set_default_typmod sampleTypeEnv ⟨["sys", "varchar"], false, 0⟩ 8004 false
      = (8004, .ok) ∧
    ((pltsql_check_or_set_default_typmod sampleTypeEnv ⟨["sys", "varchar"], false, 0⟩ 8005
        false).2 ≠ .ok ↔
      (((8005 : Int) = -8000 ∧
          (sampleTypeEnv.DeconstructQualifiedName ["sys", "varchar"]).2 ≠ "varchar" ∧
          (sampleTypeEnv.DeconstructQualifiedName ["sys", "varchar"]).2 ≠ "nvarchar" ∧
          (sampleTypeEnv.DeconstructQualifiedName ["sys", "varchar"]).2 ≠ "varbinary") ∨
       ((8005 : Int) > 8000 + sampleTypeEnv.VARHDRSZ ∧
          ((sampleTypeEnv.DeconstructQualifiedName ["sys", "varchar"]).2 = "varchar" ∨
           (sampleTypeEnv.DeconstructQualifiedName ["sys", "varchar"]).2 = "bpchar")) ∨
       ((8005 : Int) > 4000 + sampleTypeEnv.VARHDRSZ ∧
          ((sampleTypeEnv.DeconstructQualifiedName ["sys", "varchar"]).2 = "nvarchar" ∨
           (sampleTypeEnv.DeconstructQualifiedName ["sys", "varchar"]).2 = "nchar")))) :=
  ⟨(explicit_typmod_error_iff sampleTypeEnv ⟨["sys", "varchar"], false, 0⟩ 8004 false
      (by decide) (by decide) rfl (by decide) (by decide)).2.2.1 (by decide)
      (Or.inl (by decide)),
    (explicit_typmod_error_iff sampleTypeEnv ⟨["sys", "varchar"], false, 0⟩ 8005 false
      (by decide) (by decide) rfl (by decide) (by decide)).1⟩

/-- C21: for a type that resolves to the schema `sys`, `pltsql_check_or_set_default_typmod`
turns the typmod -1 into `30 + VARHDRSZ` when `is_cast` holds and into `1 + VARHDRSZ`
otherwise if the type name is one of `varchar`, `nvarchar`, `nchar`, `varbinary`, `binary`,
`bpchar`, and turns the MAX marker -8000 into -1 if the type name is `varchar`, `nvarchar` or
`varbinary`, without an error. For an empty name list, a `%TYPE` reference or a type that
does not resolve to `sys`, every typmod is left as it is and there is no error. -/
theorem default_typmod_is_set (env : TypeEnv) (typeName : TypeName) (is_cast : Bool) :
    (typeName.names ≠ [] → typeName.pct_type = false →
      is_sys_schema env typeName.names = true →
      ((env.DeconstructQualifiedName typeName.names).2 = "varchar" ∨
        (env.DeconstructQualifiedName typeName.names).2 = "nvarchar" ∨
        (env.DeconstructQualifiedName typeName.names).2 = "nchar" ∨
        (env.DeconstructQualifiedName typeName.names).2 = "varbinary" ∨
        (env.DeconstructQualifiedName typeName.names).2 = "binary" ∨
        (env.DeconstructQualifiedName typeName.names).2 = "bpchar") →
      pltsql_check_or_set_default_typmod env typeName (-1) is_cast
        = (if is_cast = true then 30 + env.VARHDRSZ else 1 + env.VARHDRSZ, .ok)) ∧
    (typeName.names ≠ [] → typeName.pct_type = false →
      is_sys_schema env typeName.names = true →
      ((env.DeconstructQualifiedName typeName.names).2 = "varchar" ∨
        (env.DeconstructQualifiedName typeName.names).2 = "nvarchar" ∨
        (env.DeconstructQualifiedName typeName.names).2 = "varbinary") →
      pltsql_check_or_set_default_typmod env typeName (-8000) is_cast = (-1, .ok)) ∧
    (∀ t : Int, (typeName.names = [] ∨ typeName.pct_type = true ∨
        is_sys_schema env typeName.names = false) →
      pltsql_check_or_set_default_typmod env typeName t is_cast = (t, .ok)) := by
  refine ⟨?_, ?_, ?_⟩
  · intro hnames hpct hsys hname
    have hfun : pltsql_check_or_set_default_typmod env typeName (-1) is_cast
        = sysTypmod env (env.DeconstructQualifiedName typeName.names).2 (-1) is_cast := by
      simp [pltsql_check_or_set_default_typmod, hnames, hpct, hsys]
    rw [hfun]
    unfold sysTypmod
    rw [if_pos rfl, if_pos hname]
    cases is_cast <;> rfl
  · intro hnames hpct hsys hname
    have hfun : pltsql_check_or_set_default_typmod env typeName (-8000) is_cast
        = sysTypmod env (env.DeconstructQualifiedName typeName.names).2 (-8000) is_cast := by
      simp [pltsql_check_or_set_default_typmod, hnames, hpct, hsys]
    rw [hfun]
    unfold sysTypmod TSQLMaxTypmod
    rw [if_neg (by decide), if_pos rfl, if_pos hname]
  · intro t h
    unfold pltsql_check_or_set_default_typmod
    by_cases h1 : typeName.names = [] ∨ typeName.pct_type = true
    · rw [if_pos h1]
    · rw [if_neg h1]
      rcases h with h | h | h
      · exact absurd (Or.inl h) h1
      · exact absurd (Or.inr h) h1
      · rw [h]
        rfl

theorem default_typmod_is_set_witness :
    pltsql_check_or_set_default_typmod sampleTypeEnv ⟨["nvarchar"], false, 0⟩ (-1) true
      = (34, .ok) ∧
    pltsql_check_or_set_default_typmod sampleTypeEnv ⟨["sys", "binary"], false, 0⟩ (-1) false
      = (5, .ok) ∧
    pltsql_check_or_set_default_typmod sampleTypeEnv ⟨["sys", "varbinary"], false, 0⟩ (-8000)
      false = (-1, .ok) ∧
    pltsql_check_or_set_default_typmod sampleTypeEnv ⟨["dbo", "varchar"], false, 0⟩ (-8000)
      false = (-8000, .ok) ∧
    pltsql_check_or_set_default_typmod sampleTypeEnv ⟨["sys", "int"], true, 0⟩ (-8000)
      false = (-8000, .ok) :=
  ⟨(default_typmod_is_set sampleTypeEnv ⟨["nvarchar"], false, 0⟩ true).1 (by decide) rfl
      (by decide) (Or.inr (Or.inl (by decide))),
    (default_typmod_is_set sampleTypeEnv ⟨["sys", "binary"], false, 0⟩ false).1 (by decide) rfl
      (by decide) (Or.inr (Or.inr (Or.inr (Or.inr (Or.inl (by decide)))))),
    (default_typmod_is_set sampleTypeEnv ⟨["sys", "varbinary"], false, 0⟩ false).2.1
      (by decide) rfl (by decide) (Or.inr (Or.inr (by decide))),
    (default_typmod_is_set sampleTypeEnv ⟨["dbo", "varchar"], false, 0⟩ false).2.2 (-8000)
      (Or.inr (Or.inr (by decide))),
    (default_typmod_is_set sampleTypeEnv ⟨["sys", "int"], true, 0⟩ false).2.2 (-8000)
      (Or.inr (Or.inl rfl))⟩

/-! ## Theorems: transaction names -/

theorem start_xact_when_active {σ : Type} (E : Engine σ) (txnName : Option String)
    (s : Session σ) (hact : E.IsTransactionBlockActive s.xact = true) :
    (PLTsqlStartTransaction E txnName s).xact = s.xact := by
  simp [PLTsqlStartTransaction, hact, publishTrancount_xact]

/-- C22 (as stated, refuted): on the sample engine, in a session two levels deep whose
recorded top-level name is "t", a start call with the name "t" leaves the engine state
unchanged and raises the counter to 3; the later rollback naming "t" is not treated as a
rollback to savepoint: it takes the full-rollback branch and resets the counter to 0. -/
theorem rollback_with_top_name_after_inner_start_resets_count :
    sampleEngine.IsTransactionBlockActive sampleNested.xact = true ∧
    (PLTsqlStartTransaction sampleEngine (some "t") sampleNested).xact = sampleNested.xact ∧
    (PLTsqlStartTransaction sampleEngine (some "t") sampleNested).NestedTranCount = 3 ∧
    (PLTsqlRollbackTransaction sampleEngine (some "t") none false
      (PLTsqlStartTransaction sampleEngine (some "t") sampleNested)).out = Outcome.ok ∧
    (PLTsqlRollbackTransaction sampleEngine (some "t") none false
      (PLTsqlStartTransaction sampleEngine (some "t") sampleNested)).st.xact
      = sampleEngine.UserAbortTransactionBlock false sampleNested.xact ∧
    (PLTsqlRollbackTransaction sampleEngine (some "t") none false
      (PLTsqlStartTransaction sampleEngine (some "t") sampleNested)).st.NestedTranCount = 0 ∧
    ¬ ((PLTsqlRollbackTransaction sampleEngine (some "t") none false
      (PLTsqlStartTransaction sampleEngine (some "t") sampleNested)).st.NestedTranCount
        = (PLTsqlStartTransaction sampleEngine (some "t") sampleNested).NestedTranCount) := by
  have hx : (PLTsqlStartTransaction sampleEngine (some "t") sampleNested).xact
      = sampleNested.xact := start_xact_when_active sampleEngine (some "t") sampleNested rfl
  have hc : (PLTsqlStartTransaction sampleEngine (some "t") sampleNested).NestedTranCount
      = 3 := by
    rw [start_count]
    rfl
  have hact1 : sampleEngine.IsTransactionBlockActive
      (PLTsqlStartTransaction sampleEngine (some "t") sampleNested).xact = true := by
    rw [hx]
    rfl
  have htop1 : sampleEngine.IsTopTransactionName (some "t")
      (PLTsqlStartTransaction sampleEngine (some "t") sampleNested).xact = true := by
    rw [hx]
    decide
  have key : ∀ s1 : Session SampleXact, sampleEngine.IsTransactionBlockActive s1.xact = true →
      sampleEngine.IsTopTransactionName (some "t") s1.xact = true →
      (PLTsqlRollbackTransaction sampleEngine (some "t") none false s1).out = Outcome.ok ∧
      (PLTsqlRollbackTransaction sampleEngine (some "t") none false s1).st.xact
        = sampleEngine.UserAbortTransactionBlock false s1.xact ∧
      (PLTsqlRollbackTransaction sampleEngine (some "t") none false s1).st.NestedTranCount
        = 0 := by
    intro s1 h1 h2
    simp [PLTsqlRollbackTransaction, h2, RequireTransactionBlock, h1, publishTrancount_xact,
      publishTrancount_count]
  have h := key _ hact1 htop1
  rw [hx] at h
  refine ⟨rfl, hx, hc, h.1, h.2.1, h.2.2, ?_⟩
  rw [h.2.2, hc]
  decide

/-- C22 (amended): a `PLTsqlStartTransaction` call that finds no block active begins the block
and, when a name is supplied, hands it to `SetTopTransactionName`. A call that finds a block
active leaves the engine state as it is, whatever the name (so the recorded top-level name
and the block state are unchanged), and raises the counter by one. A later
`PLTsqlRollbackTransaction` with the inner name takes the rollback-to-savepoint branch and
leaves the counter at its raised value when the engine does not know that name as the
top-level name; when the inner name is the recorded top-level name it takes the
full-rollback branch and resets the counter to 0. -/
theorem start_records_name_only_when_it_begins_the_block {σ : Type} (E : Engine σ)
    (s : Session σ) :
    (∀ name, E.IsTransactionBlockActive s.xact = false →
      (PLTsqlStartTransaction E (some name) s).xact
        = E.SetTopTransactionName name (E.BeginTransactionBlock s.xact)) ∧
    (E.IsTransactionBlockActive s.xact = false →
      (PLTsqlStartTransaction E none s).xact = E.BeginTransactionBlock s.xact) ∧
    (∀ txnName, E.IsTransactionBlockActive s.xact = true →
      (PLTsqlStartTransaction E txnName s).xact = s.xact ∧
      (PLTsqlStartTransaction E txnName s).NestedTranCount = s.NestedTranCount + 1 ∧
      (∀ n, E.IsTopTransactionName n (PLTsqlStartTransaction E txnName s).xact
        = E.IsTopTransactionName n s.xact)) ∧
    (∀ inner qc chain, E.IsTransactionBlockActive s.xact = true →
      E.IsTopTransactionName (some inner) s.xact = false →
      (PLTsqlRollbackTransaction E (some inner) qc chain
        (PLTsqlStartTransaction E (some inner) s)).out = Outcome.ok ∧
      (PLTsqlRollbackTransaction E (some inner) qc chain
        (PLTsqlStartTransaction E (some inner) s)).st.xact
        = E.RollbackAndReleaseSavepoint (some inner)
            (E.RollbackToSavepoint (some inner) s.xact) ∧
      (PLTsqlRollbackTransaction E (some inner) qc chain
        (PLTsqlStartTransaction E (some inner) s)).qc
        = qc.map (fun q => { q with commandTag := CommandTag.CMDTAG_SAVEPOINT }) ∧
      (PLTsqlRollbackTransaction E (some inner) qc chain
        (PLTsqlStartTransaction E (some inner) s)).st.NestedTranCount
        = s.NestedTranCount + 1) ∧
    (∀ inner qc chain, E.IsTransactionBlockActive s.xact = true →
      E.IsTopTransactionName (some inner) s.xact = true →
      (PLTsqlRollbackTransaction E (some inner) qc chain
        (PLTsqlStartTransaction E (some inner) s)).out = Outcome.ok ∧
      (PLTsqlRollbackTransaction E (some inner) qc chain
        (PLTsqlStartTransaction E (some inner) s)).st.xact
        = E.UserAbortTransactionBlock chain s.xact ∧
      (PLTsqlRollbackTransaction E (some inner) qc chain
        (PLTsqlStartTransaction E (some inner) s)).st.NestedTranCount = 0) := by
  refine ⟨?_, ?_, ?_, ?_, ?_⟩
  · intro name hidle
    simp [PLTsqlStartTransaction, hidle, publishTrancount_xact]
  · intro hidle
    simp [PLTsqlStartTransaction, hidle, publishTrancount_xact]
  · intro txnName hact
    refine ⟨start_xact_when_active E txnName s hact, start_count E txnName s, ?_⟩
    intro n
    rw [start_xact_when_active E txnName s hact]
  · intro inner qc chain hact htop
    have hx := start_xact_when_active E (some inner) s hact
    have hc := start_count E (some inner) s
    have hact1 : E.IsTransactionBlockActive (PLTsqlStartTransaction E (some inner) s).xact
        = true := by rw [hx]; exact hact
    have htop1 : E.IsTopTransactionName (some inner)
        (PLTsqlStartTransaction E (some inner) s).xact = false := by rw [hx]; exact htop
    have key : ∀ s1 : Session σ, E.IsTransactionBlockActive s1.xact = true →
        E.IsTopTransactionName (some inner) s1.xact = false →
        (PLTsqlRollbackTransaction E (some inner) qc chain s1).out = Outcome.ok ∧
        (PLTsqlRollbackTransaction E (some inner) qc chain s1).st.xact
          = E.RollbackAndReleaseSavepoint (some inner)
              (E.RollbackToSavepoint (some inner) s1.xact) ∧
        (PLTsqlRollbackTransaction E (some inner) qc chain s1).qc
          = qc.map (fun q => { q with commandTag := CommandTag.CMDTAG_SAVEPOINT }) ∧
        (PLTsqlRollbackTransaction E (some inner) qc chain s1).st.NestedTranCount
          = s1.NestedTranCount := by
      intro s1 h1 h2
      simp [PLTsqlRollbackTransaction, h2, RequireTransactionBlock, h1]
    have h := key _ hact1 htop1
    rw [hx, hc] at h
    exact h
  · intro inner qc chain hact htop
    have hx := start_xact_when_active E (some inner) s hact
    have hact1 : E.IsTransactionBlockActive (PLTsqlStartTransaction E (some inner) s).xact
        = true := by rw [hx]; exact hact
    have htop1 : E.IsTopTransactionName (some inner)
        (PLTsqlStartTransaction E (some inner) s).xact = true := by rw [hx]; exact htop
    have key : ∀ s1 : Session σ, E.IsTransactionBlockActive s1.xact = true →
        E.IsTopTransactionName (some inner) s1.xact = true →
        (PLTsqlRollbackTransaction E (some inner) qc chain s1).out = Outcome.ok ∧
        (PLTsqlRollbackTransaction E (some inner) qc chain s1).st.xact
          = E.UserAbortTransactionBlock chain s1.xact ∧
        (PLTsqlRollbackTransaction E (some inner) qc chain s1).st.NestedTranCount = 0 := by
      intro s1 h1 h2
      simp [PLTsqlRollbackTransaction, h2, RequireTransactionBlock, h1, publishTrancount_xact,
        publishTrancount_count]
    have h := key _ hact1 htop1
    rw [hx] at h
    exact h

theorem start_records_name_only_when_it_begins_the_block_witness :
    (PLTsqlStartTransaction sampleEngine (some "outer") sampleIdle).xact
      = sampleEngine.SetTopTransactionName "outer"
          (sampleEngine.BeginTransactionBlock sampleIdle.xact) ∧
    (PLTsqlStartTransaction sampleEngine (some "inner") sampleNested).xact
      = sampleNested.xact ∧
    (PLTsqlRollbackTransaction sampleEngine (some "inner") none false
      (PLTsqlStartTransaction sampleEngine (some "inner") sampleNested)).out = Outcome.ok ∧
    (PLTsqlRollbackTransaction sampleEngine (some "inner") none false
      (PLTsqlStartTransaction sampleEngine (some "inner") sampleNested)).st.NestedTranCount
      = 2 + 1 ∧
    (PLTsqlRollbackTransaction sampleEngine (some "t") none false
      (PLTsqlStartTransaction sampleEngine (some "t") sampleNested)).st.NestedTranCount
      = 0 :=
  have h1 := start_records_name_only_when_it_begins_the_block sampleEngine sampleIdle
  have h2 := start_records_name_only_when_it_begins_the_block sampleEngine sampleNested
  ⟨h1.1 "outer" rfl, (h2.2.2.1 (some "inner") rfl).1,
    (h2.2.2.2.1 "inner" none false rfl (by decide)).1,
    (h2.2.2.2.1 "inner" none false rfl (by decide)).2.2.2,
    (h2.2.2.2.2 "t" none false rfl (by decide)).2.2⟩

/-! ## Theorems: frame bounds -/

/-- C23 (the code at the failing input): with `FUNC_MAX_ARGS = 100`, after the protocol has
declared 98 parameters without error the count is 99; the 99th `pltsql_declare_variable`
call, at index 98, returns without error and has written its value into slot 100, which is
not a slot of a frame of 100 slots. -/
theorem successful_declare_writes_slot_past_frame :
    sampleAfter98.out = Outcome.ok ∧
    sampleAfter98.fcinfo.nargs = 99 ∧
    (declareParam 100 sampleParam 98 sampleAfter98.args sampleAfter98.fcinfo).out
      = Outcome.ok ∧
    (declareParam 100 sampleParam 98 sampleAfter98.args sampleAfter98.fcinfo).fcinfo.nargs
      = 100 ∧
    (declareParam 100 sampleParam 98 sampleAfter98.args sampleAfter98.fcinfo).fcinfo.args
      (98 + 2) = ⟨7, false⟩ ∧
    ¬ (98 + 2 < 100) := by
  have h := declareParams_within_limit 100 (List.replicate 98 sampleParam) 0 (some zeroArgs)
    ⟨1, 100, setAt zeroFrame.args 0 ⟨1, false⟩⟩ (by decide) (by simp) (by simp)
  have hn : sampleAfter98.fcinfo.nargs = 99 := by
    unfold sampleAfter98
    rw [h.2]
    simp
  refine ⟨h.1, hn, ?_, ?_, ?_, by decide⟩
  · rw [declareParam_out, hn, if_neg (by decide)]
  · rw [declareParam_nargs, hn]
    rfl
  · rw [declareParam_slots, setAt_same]
    rfl

/-! ## Theorems: grant overrides -/

theorem mapLast_append_singleton {α : Type} (f : α → α) (init : List α) (a : α) :
    mapLast f (init ++ [a]) = init ++ [f a] := by
  induction init with
  | nil => rfl
  | cons b t ih =>
    cases t with
    | nil => rfl
    | cons c u =>
      change b :: mapLast f (c :: u ++ [a]) = b :: (c :: u ++ [f a])
      rw [ih]

theorem setLastSchemaname_rangeVar (obj_schema : String) (init : List ObjNode) (rv : RangeVar) :
    setLastSchemaname obj_schema (init ++ [ObjNode.T_RangeVar rv])
      = (init ++ [ObjNode.T_RangeVar (rv.setSchemaname obj_schema)], Outcome.ok) := by
  induction init with
  | nil => rfl
  | cons b t ih =>
    cases t with
    | nil => cases b <;> rfl
    | cons c u =>
      have hstep : setLastSchemaname obj_schema (b :: (c :: u ++ [ObjNode.T_RangeVar rv]))
          = (b :: (setLastSchemaname obj_schema (c :: u ++ [ObjNode.T_RangeVar rv])).1,
            (setLastSchemaname obj_schema (c :: u ++ [ObjNode.T_RangeVar rv])).2) := by
        cases b <;> rfl
      change setLastSchemaname obj_schema (b :: (c :: u ++ [ObjNode.T_RangeVar rv])) = _
      rw [hstep, ih]
      rfl

theorem patchGrantObjects_object (stmt : GrantStmt) (object : String)
    (obj_schema : Option String) (init : List ObjNode) (last : ObjNode)
    (h : stmt.objects = init ++ [last]) :
    patchGrantObjects stmt (some object) obj_schema
      = ({ stmt with objects := init ++ [ObjNode.T_String object] }, Outcome.ok) := by
  obtain ⟨is_grant, objtype, objects, privileges, grantees, grant_option⟩ := stmt
  simp only at h
  subst h
  have hm := mapLast_append_singleton (fun _ => ObjNode.T_String object) init last
  cases init with
  | nil => rfl
  | cons b t =>
    simp only [List.cons_append] at hm
    simp only [patchGrantObjects, List.cons_append, hm]

theorem patchGrantObjects_schema (stmt : GrantStmt) (obj_schema : String)
    (init : List ObjNode) (rv : RangeVar)
    (h : stmt.objects = init ++ [ObjNode.T_RangeVar rv]) :
    patchGrantObjects stmt none (some obj_schema)
      = ({ stmt with
          objects := init ++ [ObjNode.T_RangeVar (rv.setSchemaname obj_schema)] },
        Outcome.ok) := by
  obtain ⟨is_grant, objtype, objects, privileges, grantees, grant_option⟩ := stmt
  simp only at h
  subst h
  have hs := setLastSchemaname_rangeVar obj_schema init rv
  cases init with
  | nil => rfl
  | cons b t =>
    simp only [List.cons_append] at hs
    simp only [patchGrantObjects, List.cons_append, hs]

/-- C24: in `update_GrantStmt` on a grant template with a non-empty object list, when `object`
is supplied the last object becomes the string node of `object`, every earlier object stays,
and the call returns the same node whether `obj_schema` is supplied or not, so `obj_schema`
is written nowhere. When `object` is absent and `obj_schema` is supplied, the schema name of
the last object, a `RangeVar`, becomes `obj_schema` and nothing else of the object list
changes. In both cases the grantee override is applied afterwards as usual. -/
theorem grant_object_override_takes_precedence (stmt : GrantStmt) (init : List ObjNode)
    (grantee : Option String) :
    (∀ (last : ObjNode) (object obj_schema : String), stmt.objects = init ++ [last] →
      update_GrantStmt (.T_GrantStmt stmt) (some object) (some obj_schema) grantee
        = (.T_GrantStmt
            (patchGrantee { stmt with objects := init ++ [ObjNode.T_String object] } grantee),
          .ok) ∧
      update_GrantStmt (.T_GrantStmt stmt) (some object) (some obj_schema) grantee
        = update_GrantStmt (.T_GrantStmt stmt) (some object) none grantee) ∧
    (∀ (rv : RangeVar) (obj_schema : String), stmt.objects = init ++ [ObjNode.T_RangeVar rv] →
      update_GrantStmt (.T_GrantStmt stmt) none (some obj_schema) grantee
        = (.T_GrantStmt
            (patchGrantee { stmt with
              objects := init ++ [ObjNode.T_RangeVar { rv with schemaname := some obj_schema }] }
              grantee),
          .ok)) := by
  constructor
  · intro last object obj_schema h
    have h1 := patchGrantObjects_object stmt object (some obj_schema) init last h
    have h2 := patchGrantObjects_object stmt object none init last h
    simp only [update_GrantStmt, h1, h2, and_self]
  · intro rv obj_schema h
    have h1 := patchGrantObjects_schema stmt obj_schema init rv h
    simp only [update_GrantStmt, h1]
    rfl

theorem grant_object_override_takes_precedence_witness :
    update_GrantStmt (.T_GrantStmt sampleGrant) (some "x") (some "dbo") (some "bob")
      = (.T_GrantStmt ⟨true, 1, [.T_String "x"], [⟨some "select", []⟩],
          [⟨.ROLESPEC_CSTRING, some "alice", 30⟩, ⟨.ROLESPEC_CSTRING, some "bob", 37⟩], false⟩,
        .ok) ∧
    update_GrantStmt (.T_GrantStmt sampleGrant) none (some "dbo") none
      = (.T_GrantStmt ⟨true, 1, [.T_RangeVar ⟨none, some "dbo", some "t", 20⟩],
          [⟨some "select", []⟩],
          [⟨.ROLESPEC_CSTRING, some "alice", 30⟩, ⟨.ROLESPEC_CSTRING, some "carol", 37⟩], false⟩,
        .ok) :=
  ⟨((grant_object_override_takes_precedence sampleGrant [] (some "bob")).1
      (.T_RangeVar ⟨none, some "s", some "t", 20⟩) "x" "dbo" rfl).1,
    (grant_object_override_takes_precedence sampleGrant [] none).2
      ⟨none, some "s", some "t", 20⟩ "dbo" rfl⟩

/-! ## Theorems: failing declaration -/

end PltsqlUtils
